import Mathlib

/-!
# Digital business card: modal, social buttons, toast, clipboard, contact item

A shallow embedding of `src/scripts/components/QRModal.js`,
`src/scripts/components/SocialButtons.js`, `src/scripts/components/Toast.js`,
`src/scripts/components/ContactItem.js` and `src/scripts/utils/clipboard.js`.

The browser is modelled as an explicit page state: the elements that the
selectors find, per-element class lists and attributes, the element holding
input focus, the inline `overflow` style of `document.body`, the registered
event listeners, the queue of animation-frame callbacks and the pending
timers. Each controller method is a function on (controller fields, page).
Every DOM call a method makes is also appended to an ordered effect trace.

Modelling conventions
* On the modal's page `focus()` on a focusable element makes it
  `document.activeElement`, and on any other element (a disabled button, a
  `span` without `tabindex`) it leaves focus where it was; which elements are
  focusable is a parameter of the page, and the call is logged either way.
  The social buttons that get a click handler are `A` elements with an `href`
  and the clipboard fallback focuses the `textarea` it has just appended:
  these take focus when `focus()` is called on them.
* `blur()` on the element holding focus gives focus back to the body (no
  active element), and does nothing on any other element.
* `element.querySelector(':focus')` returns the focused element when it is a
  descendant of `element`, and null otherwise.
* A method call on a null reference raises a `TypeError`; the fields written
  before the throw keep their new values.
* Closures handed to `requestAnimationFrame` / `setTimeout` are represented by
  a constructor naming the closure together with the variables it captured.
-/

/-- Identity of a DOM element. -/
abbrev Elem := Nat

namespace QRModal

/-- The closures that `QRModal` hands to `requestAnimationFrame` and `setTimeout`. -/
inductive Callback where
  /-- `open()`: `() => { if (this.qrButtonElement) this.qrButtonElement.blur() }`. -/
  | blurQrButtonElement
  /-- `returnFocusToQRButton()`: the animation-frame closure over `qrButton`. -/
  | returnFocus (qrButton : Elem)
  /-- `returnFocusToQRButton()`: the 100 ms timer closure over `qrButton`. -/
  | blurIfActive (qrButton : Elem)
  deriving DecidableEq, Repr

/-- The five stable handler references created by `bindEvents`; `foreign` stands
for any handler that some other script registered. -/
inductive Handler where
  | handleQrButtonClick
  | handleCloseClick
  | handleBackdropClick
  | handleDownloadClick
  | handleDocumentKeydown
  | foreign (id : Nat)
  deriving DecidableEq, Repr

/-- Event targets used by the controller. -/
inductive Target where
  | element (e : Elem)
  | document
  deriving DecidableEq, Repr

/-- A registered listener: target, event type and callback. -/
structure Listener where
  target : Target
  type : String
  handler : Handler
  deriving DecidableEq, Repr

/-- One DOM call, as it appears in the ordered effect trace. -/
inductive Effect where
  | blur (e : Elem)
  | focus (e : Elem)
  | classListAdd (e : Elem) (cls : String)
  | classListRemove (e : Elem) (cls : String)
  | setAttribute (e : Elem) (name value : String)
  | setBodyOverflow (value : String)
  | addEventListener (l : Listener)
  | removeEventListener (l : Listener)
  | requestAnimationFrame (cb : Callback)
  | setTimeout (cb : Callback) (delay : Nat)
  | download (href : Elem)
  deriving DecidableEq, Repr

/-- The page as the controller sees it. -/
structure Page where
  /-- `document.querySelector('.qr-modal')`. -/
  qrModal : Option Elem
  /-- `document.querySelector('.modal__backdrop')`. -/
  modalBackdrop : Option Elem
  /-- `document.querySelector('.modal__close')`. -/
  modalClose : Option Elem
  /-- `document.querySelector('.qr-download-btn')`. -/
  qrDownloadBtn : Option Elem
  /-- `document.querySelector('.qr-code-image')`. -/
  qrCodeImage : Option Elem
  /-- `document.querySelector('.qr-button')`. -/
  qrButton : Option Elem
  /-- `parent.contains(child)` for `child ≠ parent`: the descendant relation. -/
  descendant : Elem → Elem → Bool
  /-- `element.classList`. -/
  classList : Elem → List String
  /-- `element.getAttribute(name)`. -/
  getAttribute : Elem → String → Option String
  /-- `document.activeElement`, `none` when no element holds focus. -/
  activeElement : Option Elem
  /-- The element is a focusable area when `focus()` is called on it:
  `element.focus()` gives it input focus. False for a disabled control and for
  an element that is not focusable by nature and has no `tabindex`. -/
  focusable : Elem → Bool
  /-- `document.body.style.overflow`. -/
  bodyOverflow : String
  /-- `window.matchMedia`: `none` when the function is unavailable, otherwise
  the `matches` flag of the query `(min-width: 769px)`. -/
  matchMedia : Option Bool
  /-- `window.innerWidth`. -/
  innerWidth : Nat
  /-- Registered event listeners. -/
  listeners : List Listener
  /-- Callbacks waiting for the next animation frame. -/
  rafQueue : List Callback
  /-- Pending timers: callback and delay in milliseconds. -/
  timers : List (Callback × Nat)

/-- The fields of a `QRModal` instance. -/
structure Fields where
  modal : Option Elem
  backdrop : Option Elem
  closeButton : Option Elem
  downloadButton : Option Elem
  qrImage : Option Elem
  qrButtonElement : Option Elem
  qrButton : Option Elem
  isOpen : Bool
  handleQrButtonClick : Option Handler
  handleCloseClick : Option Handler
  handleBackdropClick : Option Handler
  handleDownloadClick : Option Handler
  handleDocumentKeydown : Option Handler
  deriving DecidableEq, Repr

/-- Controller fields, page, and the ordered trace of DOM calls made so far. -/
structure World where
  self : Fields
  page : Page
  trace : List Effect

/-- Result of a method call: the world it leaves, and whether it threw. -/
structure Outcome where
  world : World
  threw : Bool

/-- What one DOM call does to the page. -/
def Effect.apply : Effect → Page → Page
  | .blur e, p =>
      if p.activeElement = some e then { p with activeElement := none } else p
  | .focus e, p =>
      if p.focusable e then { p with activeElement := some e } else p
  | .classListAdd e cls, p =>
      if cls ∈ p.classList e then p
      else { p with classList := fun x => if x = e then p.classList e ++ [cls] else p.classList x }
  | .classListRemove e cls, p =>
      { p with classList := fun x => if x = e then (p.classList e).filter (· ≠ cls) else p.classList x }
  | .setAttribute e name value, p =>
      { p with getAttribute := fun x n => if x = e ∧ n = name then some value else p.getAttribute x n }
  | .setBodyOverflow value, p => { p with bodyOverflow := value }
  | .addEventListener l, p =>
      if l ∈ p.listeners then p else { p with listeners := p.listeners ++ [l] }
  | .removeEventListener l, p => { p with listeners := p.listeners.filter (· ≠ l) }
  | .requestAnimationFrame cb, p => { p with rafQueue := p.rafQueue ++ [cb] }
  | .setTimeout cb delay, p => { p with timers := p.timers ++ [(cb, delay)] }
  | .download _, p => p

/-- Make one DOM call: change the page and log the call. -/
def World.perform (w : World) (eff : Effect) : World :=
  { w with page := eff.apply w.page, trace := w.trace ++ [eff] }

/-- Normal completion. -/
def Outcome.ok (w : World) : Outcome := ⟨w, false⟩

/-- Abrupt completion with a `TypeError`. -/
def Outcome.typeError (w : World) : Outcome := ⟨w, true⟩

/-- `this.modal.querySelector(':focus')`. -/
def Page.focusedInside (p : Page) (root : Elem) : Option Elem :=
  match p.activeElement with
  | some e => if p.descendant root e then some e else none
  | none => none

end QRModal

/-- `QRModal.open()`. -/
def QRModal.open (w : QRModal.World) : QRModal.Outcome :=
  match w.self.modal with
  | none => Outcome.ok w
  | some modal =>
    let w := { w with self := { w.self with qrButtonElement := w.page.qrButton } }
    let w := if w.self.qrButtonElement.isSome
             then w.perform (.requestAnimationFrame .blurQrButtonElement) else w
    let w := w.perform (.classListAdd modal "active")
    let w := w.perform (.setAttribute modal "aria-hidden" "false")
    let w := { w with self := { w.self with isOpen := true } }
    match w.self.closeButton with
    | none => Outcome.typeError w
    | some closeButton =>
      let w := w.perform (.focus closeButton)
      Outcome.ok (w.perform (.setBodyOverflow "hidden"))

/-- `QRModal.returnFocusToQRButton()`. The body of the animation-frame closure
is `QRModal.Callback.run` at `returnFocus`. -/
def QRModal.returnFocusToQRButton (w : QRModal.World) : QRModal.World :=
  let isDesktop : Bool :=
    match w.page.matchMedia with
    | some mediaMatches => mediaMatches
    | none => decide (w.page.innerWidth > 768)
  if isDesktop then
    let qrButton : Option Elem :=
      match w.self.qrButtonElement with
      | some b => some b
      | none => w.page.qrButton
    match qrButton with
    | some b => w.perform (.requestAnimationFrame (.returnFocus b))
    | none => w
  else w

/-- `QRModal.close()`. -/
def QRModal.close (w : QRModal.World) : QRModal.Outcome :=
  match w.self.modal with
  | none => Outcome.ok w
  | some modal =>
    if !w.self.isOpen then Outcome.ok w
    else
      let w := match w.page.focusedInside modal with
               | some focusedElement => w.perform (.blur focusedElement)
               | none => w
      let w := w.perform (.classListRemove modal "active")
      let w := w.perform (.setAttribute modal "aria-hidden" "true")
      let w := { w with self := { w.self with isOpen := false } }
      let w := w.perform (.setBodyOverflow "")
      Outcome.ok (QRModal.returnFocusToQRButton w)

/-- `QRModal.handleKeydown(e)`, with `key` the value of `e.key`. -/
def QRModal.handleKeydown (key : String) (w : QRModal.World) : QRModal.Outcome :=
  if !w.self.isOpen then Outcome.ok w
  else if key = "Escape" then QRModal.close w
  else Outcome.ok w

/-- `QRModal.downloadQR()`. The temporary link is created, appended, clicked and
removed inside a `try` whose `catch` calls the empty `showDownloadError`, so
the method completes normally whether or not the browser call fails; the
append-click-remove of the link is logged as one `download` effect. -/
def QRModal.downloadQR (w : QRModal.World) : QRModal.Outcome :=
  match w.self.qrImage with
  | none => Outcome.ok w
  | some img => Outcome.ok (w.perform (.download img))

/-- `target.addEventListener(type, handler)` under the guard `if (target)`. -/
def QRModal.World.listen (w : QRModal.World) (target : Option Elem) (type : String)
    (handler : Option QRModal.Handler) : QRModal.World :=
  match target, handler with
  | some e, some h => w.perform (.addEventListener ⟨.element e, type, h⟩)
  | _, _ => w

/-- `target.removeEventListener(type, handler)` under the guard
`if (target && handler)`. -/
def QRModal.World.unlisten (w : QRModal.World) (target : Option Elem) (type : String)
    (handler : Option QRModal.Handler) : QRModal.World :=
  match target, handler with
  | some e, some h => w.perform (.removeEventListener ⟨.element e, type, h⟩)
  | _, _ => w

/-- `QRModal.bindEvents()`. -/
def QRModal.bindEvents (w : QRModal.World) : QRModal.World :=
  let w := { w with self := { w.self with
    handleQrButtonClick := some .handleQrButtonClick
    handleCloseClick := some .handleCloseClick
    handleBackdropClick := some .handleBackdropClick
    handleDownloadClick := some .handleDownloadClick
    handleDocumentKeydown := some .handleDocumentKeydown } }
  let w := w.listen w.self.qrButton "click" w.self.handleQrButtonClick
  let w := w.listen w.self.closeButton "click" w.self.handleCloseClick
  let w := w.listen w.self.backdrop "click" w.self.handleBackdropClick
  let w := w.listen w.self.downloadButton "click" w.self.handleDownloadClick
  match w.self.handleDocumentKeydown with
  | some h => w.perform (.addEventListener ⟨.document, "keydown", h⟩)
  | none => w

/-- `QRModal.init()`. -/
def QRModal.init (w : QRModal.World) : QRModal.World :=
  let w := { w with self := { w.self with
    modal := w.page.qrModal
    backdrop := w.page.modalBackdrop
    closeButton := w.page.modalClose
    downloadButton := w.page.qrDownloadBtn
    qrImage := w.page.qrCodeImage
    qrButton := w.page.qrButton } }
  match w.self.modal with
  | none => w
  | some _ => QRModal.bindEvents w

/-- The field values that the constructor assigns before it calls `init()`. -/
def QRModal.Fields.initial : QRModal.Fields :=
  { modal := none, backdrop := none, closeButton := none, downloadButton := none,
    qrImage := none, qrButtonElement := none, qrButton := none, isOpen := false,
    handleQrButtonClick := none, handleCloseClick := none, handleBackdropClick := none,
    handleDownloadClick := none, handleDocumentKeydown := none }

/-- `new QRModal()` on a given page, with an empty effect trace. -/
def QRModal.construct (p : QRModal.Page) : QRModal.World :=
  QRModal.init { self := QRModal.Fields.initial, page := p, trace := [] }

/-- `QRModal.destroy()`. -/
def QRModal.destroy (w : QRModal.World) : QRModal.Outcome :=
  let w := w.unlisten w.self.qrButton "click" w.self.handleQrButtonClick
  let w := w.unlisten w.self.closeButton "click" w.self.handleCloseClick
  let w := w.unlisten w.self.backdrop "click" w.self.handleBackdropClick
  let w := w.unlisten w.self.downloadButton "click" w.self.handleDownloadClick
  let w := match w.self.handleDocumentKeydown with
           | some h => w.perform (.removeEventListener ⟨.document, "keydown", h⟩)
           | none => w
  let w := { w with self := { w.self with isOpen := false } }
  let w := w.perform (.setBodyOverflow "")
  Outcome.ok { w with self := { w.self with
    handleQrButtonClick := none
    handleCloseClick := none
    handleBackdropClick := none
    handleDownloadClick := none
    handleDocumentKeydown := none } }

/-- The body of each deferred closure, run when the browser calls it. The
`try`/`catch` around `qrButton.focus()` never fires on a non-null element. -/
def QRModal.Callback.run : QRModal.Callback → QRModal.World → QRModal.World
  | .blurQrButtonElement, w =>
      match w.self.qrButtonElement with
      | some b => w.perform (.blur b)
      | none => w
  | .returnFocus qrButton, w =>
      let w := w.perform (.focus qrButton)
      w.perform (.setTimeout (.blurIfActive qrButton) 100)
  | .blurIfActive qrButton, w =>
      if w.page.activeElement = some qrButton then w.perform (.blur qrButton) else w

/-- What can happen to a constructed controller: a method is called, the
browser runs the queued animation-frame callbacks, a pending timer fires, or
the user moves focus. -/
inductive QRModal.Event where
  | open
  | close
  | keydown (key : String)
  | downloadQR
  | animationFrame
  | timer (index : Nat)
  /-- Input focus moves without the controller (Tab, pointer, another
  script), `none` for the page body; any target is admitted. -/
  | userFocus (target : Option Elem)
  deriving DecidableEq, Repr

/-- One event. An exception thrown by a method ends that call only: the
controller and the page keep the values written before the throw. -/
def QRModal.Event.apply : QRModal.Event → QRModal.World → QRModal.World
  | .open, w => (QRModal.open w).world
  | .close, w => (QRModal.close w).world
  | .keydown key, w => (QRModal.handleKeydown key w).world
  | .downloadQR, w => (QRModal.downloadQR w).world
  | .animationFrame, w =>
      w.page.rafQueue.foldl (fun acc cb => cb.run acc)
        { w with page := { w.page with rafQueue := [] } }
  | .timer index, w =>
      match w.page.timers.get? index with
      | some (cb, _) =>
          cb.run { w with page := { w.page with timers := w.page.timers.eraseIdx index } }
      | none => w
  | .userFocus target, w => { w with page := { w.page with activeElement := target } }

/-- A sequence of events, applied left to right. -/
def QRModal.run (events : List QRModal.Event) (w : QRModal.World) : QRModal.World :=
  events.foldl (fun acc ev => ev.apply acc) w

/-- Replay a list of DOM calls on a page. -/
def QRModal.replay (effects : List QRModal.Effect) (p : QRModal.Page) : QRModal.Page :=
  effects.foldl (fun acc eff => eff.apply acc) p

namespace SocialButtons

/-- The closures that `SocialButtons` hands to `requestAnimationFrame` and
`setTimeout`, each with the variables it captured. -/
inductive Callback where
  /-- First animation-frame closure of `handleSocialButtonClick`: blur the button. -/
  | blurClicked (clickedButton : Elem)
  /-- Second animation-frame closure of `handleSocialButtonClick`: it sets the
  50 ms and the 200 ms timers. -/
  | scheduleAttempts (clickedButton : Elem)
  /-- The 50 ms timer closure ("First attempt"). -/
  | firstAttempt (clickedButton : Elem)
  /-- The 200 ms timer closure ("Second attempt"). -/
  | secondAttempt (clickedButton : Elem)
  /-- The 100 ms timer closure set by either attempt. -/
  | blurIfActive (clickedButton : Elem)
  /-- The animation-frame closure of `windowFocusHandler`. -/
  | focusLastClicked
  /-- The 100 ms timer closure set inside `focusLastClicked`. -/
  | blurLastClicked
  /-- The 5000 ms timer closure of `setupWindowFocusHandler(button)`. -/
  | clearLastClicked (button : Elem)
  deriving DecidableEq, Repr

/-- Event callbacks registered by the coordinator; `foreign` stands for any
callback registered by another script. -/
inductive Handler where
  /-- The per-button closure `(e) => this.handleSocialButtonClick(e, button)`. -/
  | socialButtonClick (button : Elem)
  | windowFocusHandler
  | handleDesktopMediaChange
  | foreign (id : Nat)
  deriving DecidableEq, Repr

/-- Event targets used by the coordinator. -/
inductive Target where
  | element (e : Elem)
  | window
  /-- The `MediaQueryList` returned by `window.matchMedia('(min-width: 769px)')`. -/
  | desktopMediaQuery
  deriving DecidableEq, Repr

/-- A registered listener: target, event type and callback. -/
structure Listener where
  target : Target
  type : String
  handler : Handler
  deriving DecidableEq, Repr

/-- One browser call, as it appears in the ordered effect trace. -/
inductive Effect where
  | blur (e : Elem)
  | focus (e : Elem)
  | addEventListener (l : Listener)
  | removeEventListener (l : Listener)
  | requestAnimationFrame (cb : Callback)
  | setTimeout (cb : Callback) (delay : Nat)
  deriving DecidableEq, Repr

/-- An element matched by `.social-button:not(.qr-button)`. -/
structure SocialElement where
  elem : Elem
  /-- `getAttribute('href')`. -/
  href : Option String
  tagName : String
  deriving DecidableEq, Repr

/-- A pending timer: its callback and the clock value at which it is due. -/
structure Timer where
  callback : Callback
  due : Nat
  deriving DecidableEq, Repr

/-- The browser as the coordinator sees it. -/
structure Page where
  /-- `document.querySelectorAll('.social-button:not(.qr-button)')`. -/
  socialButtonElements : List SocialElement
  /-- `document.querySelector('.qr-button')`. -/
  qrButton : Option Elem
  /-- `window.matchMedia`: `none` when the function is unavailable, otherwise
  the `matches` flag of the query `(min-width: 769px)`. -/
  matchMedia : Option Bool
  /-- `window.innerWidth`. -/
  innerWidth : Nat
  /-- `document.hasFocus()`. -/
  hasFocus : Bool
  /-- `document.activeElement`, `none` when no element holds focus. -/
  activeElement : Option Elem
  /-- Registered event listeners. -/
  listeners : List Listener
  /-- Callbacks waiting for the next animation frame. -/
  rafQueue : List Callback
  /-- Pending timers. -/
  timers : List Timer
  /-- Milliseconds on the page clock. -/
  now : Nat
  deriving DecidableEq, Repr

/-- The fields of a `SocialButtons` instance. `desktopMediaQuery` records
whether the field holds a `MediaQueryList`. -/
structure Fields where
  socialButtons : List Elem
  socialButtonHandlers : List (Elem × Handler)
  qrButton : Option Elem
  isDesktop : Bool
  desktopMediaQuery : Bool
  lastClickedButton : Option Elem
  windowFocusHandler : Option Handler
  handleDesktopMediaChange : Option Handler
  deriving DecidableEq, Repr

/-- Coordinator fields, browser state, and the ordered trace of browser calls. -/
structure World where
  self : Fields
  page : Page
  trace : List Effect
  deriving DecidableEq, Repr

/-- What one browser call does to the page. A timer set with `delay` is due
`delay` milliseconds after the current clock value. -/
def Effect.apply : Effect → Page → Page
  | .blur e, p =>
      if p.activeElement = some e then { p with activeElement := none } else p
  | .focus e, p => { p with activeElement := some e }
  | .addEventListener l, p =>
      if l ∈ p.listeners then p else { p with listeners := p.listeners ++ [l] }
  | .removeEventListener l, p => { p with listeners := p.listeners.filter (· ≠ l) }
  | .requestAnimationFrame cb, p => { p with rafQueue := p.rafQueue ++ [cb] }
  | .setTimeout cb delay, p => { p with timers := p.timers ++ [⟨cb, p.now + delay⟩] }

/-- Make one browser call: change the page and log the call. -/
def World.perform (w : World) (eff : Effect) : World :=
  { w with page := eff.apply w.page, trace := w.trace ++ [eff] }

end SocialButtons

/-- `SocialButtons.setupDesktopDetection()`. -/
def SocialButtons.setupDesktopDetection (w : SocialButtons.World) : SocialButtons.World :=
  match w.page.matchMedia with
  | some mediaMatches =>
    let w := { w with self := { w.self with desktopMediaQuery := true } }
    let w := { w with self := { w.self with isDesktop := mediaMatches } }
    let w := { w with self := { w.self with
      handleDesktopMediaChange := some .handleDesktopMediaChange } }
    w.perform (.addEventListener ⟨.desktopMediaQuery, "change", .handleDesktopMediaChange⟩)
  | none =>
    { w with self := { w.self with isDesktop := decide (w.page.innerWidth > 768) } }

/-- `SocialButtons.initializeSocialButtons()`: the body of the `forEach`
callback, folded over the matched elements. An `href` counts when it is a
non-empty string. -/
def SocialButtons.initializeSocialButtons (w : SocialButtons.World) : SocialButtons.World :=
  w.page.socialButtonElements.foldl
    (fun acc button =>
      let originalHref := button.href
      if (originalHref.isSome ∧ originalHref ≠ some "") ∧ button.tagName = "A" then
        let handler := SocialButtons.Handler.socialButtonClick button.elem
        let acc := acc.perform (.addEventListener ⟨.element button.elem, "click", handler⟩)
        let acc := { acc with self := { acc.self with
          socialButtonHandlers := acc.self.socialButtonHandlers ++ [(button.elem, handler)] } }
        { acc with self := { acc.self with
          socialButtons := acc.self.socialButtons ++ [button.elem] } }
      else acc)
    w

/-- `SocialButtons.initializeQRButton()`. -/
def SocialButtons.initializeQRButton (w : SocialButtons.World) : SocialButtons.World :=
  { w with self := { w.self with qrButton := w.page.qrButton } }

/-- The field values that the constructor assigns before it calls `init()`. -/
def SocialButtons.Fields.initial : SocialButtons.Fields :=
  { socialButtons := [], socialButtonHandlers := [], qrButton := none, isDesktop := false,
    desktopMediaQuery := false, lastClickedButton := none, windowFocusHandler := none,
    handleDesktopMediaChange := none }

/-- `new SocialButtons()` on a given page, with an empty effect trace. -/
def SocialButtons.construct (p : SocialButtons.Page) : SocialButtons.World :=
  SocialButtons.initializeQRButton
    (SocialButtons.initializeSocialButtons
      (SocialButtons.setupDesktopDetection
        { self := SocialButtons.Fields.initial, page := p, trace := [] }))

/-- `SocialButtons.setupWindowFocusHandler(button)`. The body of the handler
itself is `SocialButtons.windowFocusHandler`. -/
def SocialButtons.setupWindowFocusHandler (button : Elem) (w : SocialButtons.World) :
    SocialButtons.World :=
  let w := match w.self.windowFocusHandler with
    | none =>
      let w := { w with self := { w.self with windowFocusHandler := some .windowFocusHandler } }
      w.perform (.addEventListener ⟨.window, "focus", .windowFocusHandler⟩)
    | some _ => w
  w.perform (.setTimeout (.clearLastClicked button) 5000)

/-- `SocialButtons.handleSocialButtonClick(e, button)`; the event `e` is not used. -/
def SocialButtons.handleSocialButtonClick (button : Elem) (w : SocialButtons.World) :
    SocialButtons.World :=
  if w.self.isDesktop then
    let clickedButton := button
    let w := w.perform (.requestAnimationFrame (.blurClicked clickedButton))
    let w := { w with self := { w.self with lastClickedButton := some clickedButton } }
    let w := w.perform (.requestAnimationFrame (.scheduleAttempts clickedButton))
    SocialButtons.setupWindowFocusHandler clickedButton w
  else w

/-- The body of `this.windowFocusHandler`. -/
def SocialButtons.windowFocusHandler (w : SocialButtons.World) : SocialButtons.World :=
  if w.self.isDesktop ∧ w.self.lastClickedButton.isSome ∧ w.page.hasFocus then
    w.perform (.requestAnimationFrame .focusLastClicked)
  else w

/-- The body of each deferred closure, run when the browser calls it. In
`focusLastClicked` the call `this.lastClickedButton.focus()` on a null
reference throws inside the `try`, which skips the `setTimeout`. -/
def SocialButtons.Callback.run :
    SocialButtons.Callback → SocialButtons.World → SocialButtons.World
  | .blurClicked clickedButton, w => w.perform (.blur clickedButton)
  | .scheduleAttempts clickedButton, w =>
      let w := w.perform (.setTimeout (.firstAttempt clickedButton) 50)
      w.perform (.setTimeout (.secondAttempt clickedButton) 200)
  | .firstAttempt clickedButton, w =>
      if w.self.isDesktop then
        if w.page.hasFocus then
          let w := w.perform (.focus clickedButton)
          w.perform (.setTimeout (.blurIfActive clickedButton) 100)
        else w
      else w
  | .secondAttempt clickedButton, w =>
      if w.self.isDesktop then
        if w.page.hasFocus ∧ w.page.activeElement ≠ some clickedButton then
          let w := w.perform (.focus clickedButton)
          w.perform (.setTimeout (.blurIfActive clickedButton) 100)
        else w
      else w
  | .blurIfActive clickedButton, w =>
      if w.page.activeElement = some clickedButton then w.perform (.blur clickedButton) else w
  | .focusLastClicked, w =>
      match w.self.lastClickedButton with
      | some b =>
        let w := w.perform (.focus b)
        w.perform (.setTimeout .blurLastClicked 100)
      | none => w
  | .blurLastClicked, w =>
      match w.self.lastClickedButton with
      | some b => if w.page.activeElement = some b then w.perform (.blur b) else w
      | none => w
  | .clearLastClicked button, w =>
      if w.self.lastClickedButton = some button then
        { w with self := { w.self with lastClickedButton := none } }
      else w

/-- `SocialButtons.destroy()`. -/
def SocialButtons.destroy (w : SocialButtons.World) : SocialButtons.World :=
  let w := match w.self.desktopMediaQuery, w.self.handleDesktopMediaChange with
    | true, some h => w.perform (.removeEventListener ⟨.desktopMediaQuery, "change", h⟩)
    | _, _ => w
  let w := w.self.socialButtonHandlers.foldl
    (fun acc entry => acc.perform (.removeEventListener ⟨.element entry.1, "click", entry.2⟩)) w
  let w := match w.self.windowFocusHandler with
    | some h =>
      let w := w.perform (.removeEventListener ⟨.window, "focus", h⟩)
      { w with self := { w.self with windowFocusHandler := none } }
    | none => w
  { w with self := { w.self with
    socialButtons := []
    socialButtonHandlers := []
    qrButton := none
    isDesktop := false
    desktopMediaQuery := false
    lastClickedButton := none
    handleDesktopMediaChange := none } }

/-- What can happen to a constructed coordinator. -/
inductive SocialButtons.Event where
  /-- A social button is activated: `handleSocialButtonClick(e, button)` runs. -/
  | click (button : Elem)
  /-- The browser runs the queued animation-frame callbacks. -/
  | animationFrame
  /-- The page clock moves on by `ms` milliseconds. -/
  | elapse (ms : Nat)
  /-- The pending timer at `index` fires; it can only fire once it is due. -/
  | timer (index : Nat)
  /-- The window receives input focus and a `focus` event is dispatched on it. -/
  | windowFocus
  /-- The window loses input focus (the user switches to another tab). -/
  | windowBlur
  /-- The media query changes and a `change` event is dispatched on it. -/
  | mediaChange (isMatch : Bool)
  /-- The user moves input focus inside the page, `none` for the body. -/
  | userFocus (target : Option Elem)
  | destroy
  deriving DecidableEq, Repr

/-- One event. -/
def SocialButtons.Event.apply : SocialButtons.Event → SocialButtons.World → SocialButtons.World
  | .click button, w => SocialButtons.handleSocialButtonClick button w
  | .animationFrame, w =>
      w.page.rafQueue.foldl (fun acc cb => cb.run acc)
        { w with page := { w.page with rafQueue := [] } }
  | .elapse ms, w => { w with page := { w.page with now := w.page.now + ms } }
  | .timer index, w =>
      match w.page.timers.get? index with
      | some t =>
          if t.due ≤ w.page.now then
            t.callback.run { w with page := { w.page with timers := w.page.timers.eraseIdx index } }
          else w
      | none => w
  | .windowFocus, w =>
      let w := { w with page := { w.page with hasFocus := true } }
      if (⟨.window, "focus", .windowFocusHandler⟩ : SocialButtons.Listener) ∈ w.page.listeners then
        SocialButtons.windowFocusHandler w
      else w
  | .windowBlur, w => { w with page := { w.page with hasFocus := false } }
  | .mediaChange isMatch, w =>
      let w := { w with page := { w.page with matchMedia := w.page.matchMedia.map fun _ => isMatch } }
      if (⟨.desktopMediaQuery, "change", .handleDesktopMediaChange⟩ : SocialButtons.Listener)
          ∈ w.page.listeners then
        { w with self := { w.self with isDesktop := isMatch } }
      else w
  | .userFocus target, w => { w with page := { w.page with activeElement := target } }
  | .destroy, w => SocialButtons.destroy w

/-- A sequence of events, applied left to right. -/
def SocialButtons.run (events : List SocialButtons.Event) (w : SocialButtons.World) :
    SocialButtons.World :=
  events.foldl (fun acc ev => ev.apply acc) w

/-- No pending timer is due: every timer that was due has run. -/
def SocialButtons.World.noTimerDue (w : SocialButtons.World) : Prop :=
  ∀ t ∈ w.page.timers, w.page.now < t.due

instance (w : SocialButtons.World) : Decidable w.noTimerDue :=
  inferInstanceAs (Decidable (∀ t ∈ w.page.timers, w.page.now < t.due))

/-! ## JavaScript strings -/

/-- The characters that `String.prototype.trim` removes: the ECMAScript white
space code points (TAB, VT, FF, SP, NBSP, ZWNBSP and the space separators) and
the line terminators (LF, CR, LS, PS). -/
def Js.isTrimChar (c : Char) : Bool :=
  c.toNat = 0x09 || c.toNat = 0x0A || c.toNat = 0x0B || c.toNat = 0x0C || c.toNat = 0x0D ||
  c.toNat = 0x20 || c.toNat = 0xA0 || c.toNat = 0x1680 ||
  (0x2000 ≤ c.toNat && c.toNat ≤ 0x200A) ||
  c.toNat = 0x2028 || c.toNat = 0x2029 || c.toNat = 0x202F || c.toNat = 0x205F ||
  c.toNat = 0x3000 || c.toNat = 0xFEFF

/-- `text.trim()`. -/
def Js.trim (text : String) : String :=
  String.mk ((text.toList.dropWhile Js.isTrimChar).reverse.dropWhile Js.isTrimChar).reverse

/-- `text.includes('+')`. -/
def Js.includesPlus (text : String) : Bool :=
  text.toList.contains '+'

/-- The regular expression test `/^\d/.test(text)`: the first character is one
of the ASCII digits. -/
def Js.startsWithDigit (text : String) : Bool :=
  match text.toList with
  | c :: _ => c.isDigit
  | [] => false

/-- `isPhoneNumber(text)` of `utils/clipboard.js`. -/
def isPhoneNumber (text : String) : Bool :=
  Js.includesPlus text || Js.startsWithDigit (Js.trim text)

/-! ## Toast -/

namespace Toast

/-- One browser call, as it appears in the ordered effect trace. -/
inductive Effect where
  | setTextContent (e : Elem) (text : String)
  | classListAdd (e : Elem) (cls : String)
  | classListRemove (e : Elem) (cls : String)
  /-- `setTimeout(() => this.hide(), delay)`, with the id that the call returns. -/
  | setTimeout (id : Nat) (delay : Nat)
  | clearTimeout (id : Nat)
  | consoleWarn (message : String)
  | consoleError (message : String)
  deriving DecidableEq, Repr

/-- A pending auto-hide timer: the id returned by `setTimeout` and the clock
value at which it is due. Its callback is always `() => this.hide()`. -/
structure Timer where
  id : Nat
  due : Nat
  deriving DecidableEq, Repr

/-- The browser as the toast sees it. -/
structure Page where
  /-- `document.querySelector('.toast')`. -/
  toast : Option Elem
  /-- `element.textContent`. -/
  textContent : Elem → String
  /-- `element.classList`. -/
  classList : Elem → List String
  /-- Pending auto-hide timers of this toast. -/
  timers : List Timer
  /-- The last timer id handed out on the page; ids are positive and each
  `setTimeout` returns the next one. -/
  lastTimerId : Nat
  /-- Milliseconds on the page clock. -/
  now : Nat

/-- The fields of a `Toast` instance; `timeoutId` is `none` while the property
is undefined. -/
structure Fields where
  toastElement : Option Elem
  timeoutId : Option Nat
  deriving DecidableEq, Repr

/-- Toast fields, browser state, and the ordered trace of browser calls. -/
structure World where
  self : Fields
  page : Page
  trace : List Effect

/-- What one browser call does to the page. -/
def Effect.apply : Effect → Page → Page
  | .setTextContent e text, p =>
      { p with textContent := fun x => if x = e then text else p.textContent x }
  | .classListAdd e cls, p =>
      if cls ∈ p.classList e then p
      else { p with classList := fun x => if x = e then p.classList e ++ [cls] else p.classList x }
  | .classListRemove e cls, p =>
      { p with classList := fun x => if x = e then (p.classList e).filter (· ≠ cls) else p.classList x }
  | .setTimeout id delay, p =>
      { p with timers := p.timers ++ [⟨id, p.now + delay⟩], lastTimerId := id }
  | .clearTimeout id, p => { p with timers := p.timers.filter (·.id ≠ id) }
  | .consoleWarn _, p => p
  | .consoleError _, p => p

/-- Make one browser call: change the page and log the call. -/
def World.perform (w : World) (eff : Effect) : World :=
  { w with page := eff.apply w.page, trace := w.trace ++ [eff] }

end Toast

/-- `Toast.init()`. -/
def Toast.init (w : Toast.World) : Toast.World :=
  let w := { w with self := { w.self with toastElement := w.page.toast } }
  match w.self.toastElement with
  | none => w.perform (.consoleWarn "Toast element not found in DOM")
  | some _ => w

/-- `new Toast()`. The constructor sets `toastElement` to null and leaves
`timeoutId` undefined; no auto-hide timer of the new instance is pending. -/
def Toast.construct (p : Toast.Page) : Toast.World :=
  Toast.init { self := { toastElement := none, timeoutId := none },
               page := { p with timers := [] }, trace := [] }

/-- `Toast.hide()`. -/
def Toast.hide (w : Toast.World) : Toast.World :=
  match w.self.toastElement with
  | some el => w.perform (.classListRemove el "toast--show")
  | none => w

/-- `Toast.show(message, duration = 2500)`; `duration` is `none` when the
argument is omitted. A stored timer id is truthy when it is not 0. -/
def Toast.show (message : String) (duration : Option Nat) (w : Toast.World) : Toast.World :=
  match w.self.toastElement with
  | none => w.perform (.consoleError "Toast element not available")
  | some el =>
    let w := match w.self.timeoutId with
      | some id => if id ≠ 0 then w.perform (.clearTimeout id) else w
      | none => w
    let w := w.perform (.setTextContent el message)
    let w := w.perform (.classListAdd el "toast--show")
    let id := w.page.lastTimerId + 1
    let w := w.perform (.setTimeout id (duration.getD 2500))
    { w with self := { w.self with timeoutId := some id } }

/-- `Toast.showCopySuccess(text)`. -/
def Toast.showCopySuccess (text : String) (w : Toast.World) : Toast.World :=
  let isPhone := Js.includesPlus text || Js.startsWithDigit (Js.trim text)
  let message := if isPhone then "Copied phone number" else "Copied email"
  Toast.show message none w

/-- `Toast.showError(message = 'Failed to copy')`. -/
def Toast.showError (message : Option String) (w : Toast.World) : Toast.World :=
  Toast.show (message.getD "Failed to copy") none w

/-- What can happen to a constructed toast. -/
inductive Toast.Event where
  | show (message : String) (duration : Option Nat)
  | hide
  | showCopySuccess (text : String)
  | showError (message : Option String)
  /-- The page clock moves on by `ms` milliseconds. -/
  | elapse (ms : Nat)
  /-- The pending timer at `index` fires; it can only fire once it is due. -/
  | timer (index : Nat)
  deriving DecidableEq, Repr

/-- One event. -/
def Toast.Event.apply : Toast.Event → Toast.World → Toast.World
  | .show message duration, w => Toast.show message duration w
  | .hide, w => Toast.hide w
  | .showCopySuccess text, w => Toast.showCopySuccess text w
  | .showError message, w => Toast.showError message w
  | .elapse ms, w => { w with page := { w.page with now := w.page.now + ms } }
  | .timer index, w =>
      match w.page.timers.get? index with
      | some t =>
          if t.due ≤ w.page.now then
            Toast.hide { w with page := { w.page with timers := w.page.timers.eraseIdx index } }
          else w
      | none => w

/-- A sequence of events, applied left to right. -/
def Toast.run (events : List Toast.Event) (w : Toast.World) : Toast.World :=
  events.foldl (fun acc ev => ev.apply acc) w

/-! ## Clipboard utility -/

namespace Clipboard

/-- How the platform answers the calls made by the clipboard utility. -/
structure Platform where
  /-- `navigator.clipboard` is truthy. -/
  hasClipboard : Bool
  /-- `window.isSecureContext`. -/
  isSecureContext : Bool
  /-- `navigator.clipboard.writeText(text)` fulfils; when false the call
  throws or its promise rejects. -/
  writeTextFulfils : Bool
  /-- `textArea.focus()` throws. -/
  focusThrows : Bool
  /-- `textArea.select()` throws. -/
  selectThrows : Bool
  /-- `document.execCommand('copy')`: `none` when it throws, otherwise the
  boolean it returns. -/
  execCommand : Option Bool
  deriving DecidableEq, Repr

/-- One browser call, as it appears in the ordered effect trace. -/
inductive Effect where
  | writeText (text : String)
  | createElement (e : Elem)
  | appendChild (e : Elem)
  | focus (e : Elem)
  | select (e : Elem)
  | execCommandCopy
  | removeChild (e : Elem)
  | consoleError (message : String)
  deriving DecidableEq, Repr

/-- The document as the clipboard utility sees it. -/
structure Page where
  /-- The children of `document.body`, in order. -/
  bodyChildren : List Elem
  /-- `document.activeElement`, `none` when no element holds focus. -/
  activeElement : Option Elem
  /-- The identity that the next `document.createElement` gives to its node. -/
  nextElem : Elem
  deriving DecidableEq, Repr

/-- Page and ordered trace of browser calls. -/
structure World where
  page : Page
  trace : List Effect
  deriving DecidableEq, Repr

/-- How a call ends: normally with a value, or with an exception (for an
`async` function: fulfilled with a value, or rejected). -/
inductive Completion (α : Type) where
  | normal (world : World) (value : α)
  | abrupt (world : World)
  deriving DecidableEq, Repr

/-- The world a call leaves behind, however it ends. -/
def Completion.world {α : Type} : Completion α → World
  | .normal w _ => w
  | .abrupt w => w

/-- What one browser call does to the page, when it does not throw. -/
def Effect.apply : Effect → Page → Page
  | .writeText _, p => p
  | .createElement e, p => { p with nextElem := e + 1 }
  | .appendChild e, p => { p with bodyChildren := p.bodyChildren.filter (· ≠ e) ++ [e] }
  | .focus e, p => { p with activeElement := some e }
  | .select _, p => p
  | .execCommandCopy, p => p
  | .removeChild e, p =>
      { p with bodyChildren := p.bodyChildren.filter (· ≠ e),
               activeElement := if p.activeElement = some e then none else p.activeElement }
  | .consoleError _, p => p

/-- Make one browser call: change the page and log the call. -/
def World.perform (w : World) (eff : Effect) : World :=
  { w with page := eff.apply w.page, trace := w.trace ++ [eff] }

end Clipboard

/-- The `try` block of `fallbackCopyToClipboard(text)`. A call that throws is
logged and leaves the page as it was before the call. -/
def Clipboard.fallbackTry (_text : String) (platform : Clipboard.Platform)
    (w : Clipboard.World) : Clipboard.Completion Bool :=
  let textArea := w.page.nextElem
  let w := w.perform (.createElement textArea)
  let w := w.perform (.appendChild textArea)
  if platform.focusThrows then .abrupt { w with trace := w.trace ++ [.focus textArea] }
  else
    let w := w.perform (.focus textArea)
    if platform.selectThrows then .abrupt { w with trace := w.trace ++ [.select textArea] }
    else
      let w := w.perform (.select textArea)
      match platform.execCommand with
      | none => .abrupt { w with trace := w.trace ++ [.execCommandCopy] }
      | some successful =>
        let w := w.perform .execCommandCopy
        let w := w.perform (.removeChild textArea)
        .normal w successful

/-- `fallbackCopyToClipboard(text)`: the `try` block and its `catch`. -/
def Clipboard.fallbackCopyToClipboard (text : String) (platform : Clipboard.Platform)
    (w : Clipboard.World) : Clipboard.Completion Bool :=
  match Clipboard.fallbackTry text platform w with
  | .normal w successful => .normal w successful
  | .abrupt w => .normal (w.perform (.consoleError "Fallback copy failed:")) false

/-- The `try` block of `copyToClipboard(text)`, awaited. -/
def Clipboard.copyTry (text : String) (platform : Clipboard.Platform)
    (w : Clipboard.World) : Clipboard.Completion Bool :=
  if platform.hasClipboard && platform.isSecureContext then
    if platform.writeTextFulfils then .normal (w.perform (.writeText text)) true
    else .abrupt { w with trace := w.trace ++ [.writeText text] }
  else Clipboard.fallbackCopyToClipboard text platform w

/-- `copyToClipboard(text)`, awaited: the `try` block and its `catch`. -/
def Clipboard.copyToClipboard (text : String) (platform : Clipboard.Platform)
    (w : Clipboard.World) : Clipboard.Completion Bool :=
  match Clipboard.copyTry text platform w with
  | .normal w value => .normal w value
  | .abrupt w =>
    Clipboard.fallbackCopyToClipboard text platform
      (w.perform (.consoleError "Clipboard API failed:"))

/-! ## Contact item -/

namespace ContactItem

/-- The closures that `ContactItem` hands to `setTimeout`. -/
inductive Callback where
  /-- `showCopySuccess()`: the 1500 ms closure over `icon` and `originalClass`. -/
  | revert (icon : Elem) (originalClass : String)
  deriving DecidableEq, Repr

/-- One browser call, as it appears in the ordered effect trace. -/
inductive Effect where
  | classListAdd (e : Elem) (cls : String)
  | classListRemove (e : Elem) (cls : String)
  | setClassName (e : Elem) (value : String)
  | blur (e : Elem)
  | setTimeout (cb : Callback) (delay : Nat)
  deriving DecidableEq, Repr

/-- A pending timer: its callback and the clock value at which it is due. -/
structure Timer where
  callback : Callback
  due : Nat
  deriving DecidableEq, Repr

/-- The browser as one contact item sees it. -/
structure Page where
  /-- `element.textContent`. -/
  textContent : Elem → String
  /-- `element.classList`, used on the copy control. -/
  classList : Elem → List String
  /-- `element.className`, used on the icon. -/
  className : Elem → String
  /-- `element.querySelector('i')`. -/
  icon : Elem → Option Elem
  /-- `document.activeElement`, `none` when no element holds focus. -/
  activeElement : Option Elem
  /-- Pending timers. -/
  timers : List Timer
  /-- Milliseconds on the page clock. -/
  now : Nat

/-- The fields of a `ContactItem` instance. -/
structure Fields where
  element : Elem
  copyButton : Option Elem
  contactLink : Option Elem
  contactText : Option Elem
  deriving DecidableEq, Repr

/-- Item fields, browser state, and the ordered trace of browser calls. -/
structure World where
  self : Fields
  page : Page
  trace : List Effect

/-- How a call ends: normally, or with an exception (for an `async` method: a
fulfilled or a rejected promise). -/
structure Outcome where
  world : World
  threw : Bool

/-- What one browser call does to the page. -/
def Effect.apply : Effect → Page → Page
  | .classListAdd e cls, p =>
      if cls ∈ p.classList e then p
      else { p with classList := fun x => if x = e then p.classList e ++ [cls] else p.classList x }
  | .classListRemove e cls, p =>
      { p with classList := fun x => if x = e then (p.classList e).filter (· ≠ cls) else p.classList x }
  | .setClassName e value, p =>
      { p with className := fun x => if x = e then value else p.className x }
  | .blur e, p =>
      if p.activeElement = some e then { p with activeElement := none } else p
  | .setTimeout cb delay, p => { p with timers := p.timers ++ [⟨cb, p.now + delay⟩] }

/-- Make one browser call: change the page and log the call. -/
def World.perform (w : World) (eff : Effect) : World :=
  { w with page := eff.apply w.page, trace := w.trace ++ [eff] }

end ContactItem

/-- `ContactItem.showCopySuccess()`. On a null `copyButton` the first statement
throws. -/
def ContactItem.showCopySuccess (w : ContactItem.World) : ContactItem.Outcome :=
  match w.self.copyButton with
  | none => ⟨w, true⟩
  | some copyButton =>
    let w := w.perform (.classListAdd copyButton "copied")
    match w.page.icon copyButton with
    | some icon =>
      let originalClass := w.page.className icon
      let w := w.perform (.setClassName icon "fa-solid fa-check")
      ⟨w.perform (.setTimeout (.revert icon originalClass) 1500), false⟩
    | none => ⟨w, false⟩

/-- `ContactItem.handleCopyClick()`, awaited. `copied` is what the awaited
`copyToClipboard(textToCopy)` gives: `some success`, or `none` when it throws.
The `catch` swallows every exception of the `try` block; the `finally` block
runs after it and throws on a null `copyButton`. -/
def ContactItem.handleCopyClick (copied : String → Option Bool) (w : ContactItem.World) :
    ContactItem.Outcome :=
  match w.self.contactText with
  | none => ⟨w, false⟩
  | some contactText =>
    let textToCopy := Js.trim (w.page.textContent contactText)
    if textToCopy = "" then ⟨w, false⟩
    else
      let w := match copied textToCopy with
        | some true => (ContactItem.showCopySuccess w).world
        | some false => w
        | none => w
      match w.self.copyButton with
      | some copyButton => ⟨w.perform (.blur copyButton), false⟩
      | none => ⟨w, true⟩

/-- The body of the `revert` timer closure; `this.copyButton` is read when the
timer fires. -/
def ContactItem.Callback.run : ContactItem.Callback → ContactItem.World → ContactItem.World
  | .revert icon originalClass, w =>
      match w.self.copyButton with
      | some copyButton =>
        let w := w.perform (.classListRemove copyButton "copied")
        w.perform (.setClassName icon originalClass)
      | none => w

/-- What can happen to a contact item. -/
inductive ContactItem.Event where
  /-- The copy control is activated and the clipboard write gives `copied`. -/
  | copyClick (copied : Option Bool)
  /-- The page clock moves on by `ms` milliseconds. -/
  | elapse (ms : Nat)
  /-- The pending timer at `index` fires; it can only fire once it is due. -/
  | timer (index : Nat)
  /-- The user moves input focus, `none` for the body. -/
  | userFocus (target : Option Elem)
  deriving DecidableEq, Repr

/-- One event. -/
def ContactItem.Event.apply : ContactItem.Event → ContactItem.World → ContactItem.World
  | .copyClick copied, w => (ContactItem.handleCopyClick (fun _ => copied) w).world
  | .elapse ms, w => { w with page := { w.page with now := w.page.now + ms } }
  | .timer index, w =>
      match w.page.timers.get? index with
      | some t =>
          if t.due ≤ w.page.now then
            t.callback.run { w with page := { w.page with timers := w.page.timers.eraseIdx index } }
          else w
      | none => w
  | .userFocus target, w => { w with page := { w.page with activeElement := target } }

/-- A sequence of events, applied left to right. -/
def ContactItem.run (events : List ContactItem.Event) (w : ContactItem.World) :
    ContactItem.World :=
  events.foldl (fun acc ev => ev.apply acc) w

/-! ## Sample pages and specification-side definitions -/

/-- A page with every element of the QR modal present: modal 1 containing the
backdrop 2, the close control 3, the download control 4 and the image 5; the
QR button 6 outside the modal; a desktop-width viewport. The close control,
the download control and the QR button are enabled buttons, the only
focusable elements. -/
def QRModal.fullPage : QRModal.Page :=
  { qrModal := some 1, modalBackdrop := some 2, modalClose := some 3, qrDownloadBtn := some 4,
    qrCodeImage := some 5, qrButton := some 6,
    descendant := fun parent child => decide (parent = 1 ∧ 2 ≤ child ∧ child ≤ 5),
    classList := fun _ => [], getAttribute := fun _ _ => none,
    activeElement := none, focusable := fun e => decide (e = 3 ∨ e = 4 ∨ e = 6),
    bodyOverflow := "", matchMedia := some true, innerWidth := 1280,
    listeners := [], rafQueue := [], timers := [] }

/-- The full page without its close control. -/
def QRModal.pageWithoutClose : QRModal.Page :=
  { QRModal.fullPage with modalClose := none }

/-- The full page whose close control 3 is present but not focusable: a
disabled button, or a `span` carrying the class `modal__close`. -/
def QRModal.pageWithDisabledClose : QRModal.Page :=
  { QRModal.fullPage with focusable := fun e => decide (e = 4 ∨ e = 6) }

/-- The part of the world that decides which listeners `destroy()` removes:
the element and handler fields, and the registered listeners. -/
def QRModal.World.binding (w : QRModal.World) :
    (Option Elem × Option Elem × Option Elem × Option Elem) ×
    (Option Handler × Option Handler × Option Handler × Option Handler × Option Handler) ×
    List Listener :=
  ((w.self.qrButton, w.self.closeButton, w.self.backdrop, w.self.downloadButton),
   (w.self.handleQrButtonClick, w.self.handleCloseClick, w.self.handleBackdropClick,
    w.self.handleDownloadClick, w.self.handleDocumentKeydown),
   w.page.listeners)

/-- Effects other than adding or removing a listener. -/
def QRModal.Effect.keepsListeners : QRModal.Effect → Bool
  | .addEventListener _ => false
  | .removeEventListener _ => false
  | _ => true

/-- The listener list after `removeEventListener(type, handler)` on `target`,
guarded by `target && handler`. -/
def QRModal.without (l : List QRModal.Listener) (target : Option QRModal.Target)
    (type : String) (handler : Option QRModal.Handler) : List QRModal.Listener :=
  match target, handler with
  | some t, some h => l.filter (· ≠ ⟨t, type, h⟩)
  | _, _ => l

/-- The full page on which another script has registered a `keydown` listener. -/
def QRModal.pageWithForeignListener : QRModal.Page :=
  { QRModal.fullPage with listeners := [⟨.document, "keydown", .foreign 0⟩] }

/-- Click events. -/
def SocialButtons.Event.isClick : SocialButtons.Event → Bool
  | .click _ => true
  | _ => false

/-- While a button is remembered, the timer that will forget it is pending and
is due no later than 5000 ms after clock value `clickedAt`. -/
def SocialButtons.World.expiryPending (clickedAt : Nat) (w : SocialButtons.World) : Prop :=
  ∀ b, w.self.lastClickedButton = some b →
    ∃ t ∈ w.page.timers, t.callback = .clearLastClicked b ∧ t.due ≤ clickedAt + 5000

/-- A desktop page with two social links, elements 1 and 2, in a focused window. -/
def SocialButtons.desktopPage : SocialButtons.Page :=
  { socialButtonElements :=
      [⟨1, some "https://example.com/one", "A"⟩, ⟨2, some "https://example.com/two", "A"⟩],
    qrButton := some 6, matchMedia := some true, innerWidth := 1280, hasFocus := true,
    activeElement := none, listeners := [], rafQueue := [], timers := [], now := 0 }

/-- A page 600 px wide on which the media query does not match. -/
def SocialButtons.mobilePage : SocialButtons.Page :=
  { SocialButtons.desktopPage with matchMedia := some false, innerWidth := 600 }

/-- The events after a click on link 1 at time 0 on the desktop page: the
frame, both focus attempts with their blurs, and the expiry timer at 5000 ms;
the clock ends at 5001 ms. -/
def SocialButtons.fullTimeline : List SocialButtons.Event :=
  [.animationFrame, .elapse 50, .timer 1, .elapse 100, .timer 2, .elapse 50, .timer 1,
   .elapse 100, .timer 1, .elapse 4700, .timer 0, .elapse 1]

/-- Link 1 is clicked at time 0 on the desktop page, its frame and its four
short timers run, and the clock reaches 4000 ms with the expiry timer of that
click still pending. -/
def SocialButtons.clickedEarlier : SocialButtons.World :=
  SocialButtons.run
    [.click 1, .animationFrame, .elapse 50, .timer 1, .elapse 100, .timer 2, .elapse 50,
     .timer 1, .elapse 100, .timer 1, .elapse 3700]
    (SocialButtons.construct SocialButtons.desktopPage)

/-- The events after a second click on link 1 at 4000 ms: its frame and short
timers, the expiry timer of the first click at 5000 ms, the expiry timer of
the second click at 9000 ms; the clock ends at 9001 ms. -/
def SocialButtons.secondClickTimeline : List SocialButtons.Event :=
  [.animationFrame, .elapse 50, .timer 2, .elapse 100, .timer 3, .elapse 50, .timer 2,
   .elapse 100, .timer 2, .elapse 700, .timer 0, .elapse 4000, .timer 0, .elapse 1]

/-- A page with a toast element 9 and nothing shown. -/
def Toast.samplePage : Toast.Page :=
  { toast := some 9, textContent := fun _ => "", classList := fun _ => [],
    timers := [], lastTimerId := 0, now := 0 }

/-- Every pending auto-hide timer is the one whose id is stored in
`timeoutId`, and that id is truthy. -/
def Toast.World.tracked (w : Toast.World) : Prop :=
  ∀ t ∈ w.page.timers, w.self.timeoutId = some t.id ∧ t.id ≠ 0

/-- The number of `hide()` executions in a trace: calls that remove the class
`toast--show`. -/
def Toast.dismissals (trace : List Toast.Effect) : Nat :=
  trace.countP fun eff =>
    match eff with
    | .classListRemove _ cls => cls = "toast--show"
    | _ => false

/-- Timer id `id` has been handed out and no pending timer carries it or an
earlier one. -/
def Toast.World.retired (id : Nat) (w : Toast.World) : Prop :=
  id ≤ w.page.lastTimerId ∧ ∀ t ∈ w.page.timers, id < t.id

/-- A document whose body has the children 1 and 2, with focus on element 1. -/
def Clipboard.sampleWorld : Clipboard.World :=
  { page := { bodyChildren := [1, 2], activeElement := some 1, nextElem := 100 }, trace := [] }

/-- A platform without the asynchronous clipboard API on which
`document.execCommand('copy')` throws. -/
def Clipboard.execCommandThrows : Clipboard.Platform :=
  { hasClipboard := false, isSecureContext := false, writeTextFulfils := false,
    focusThrows := false, selectThrows := false, execCommand := none }

/-- A secure page whose `writeText` promise rejects and whose
`document.execCommand('copy')` returns `true`. -/
def Clipboard.writeTextRejects : Clipboard.Platform :=
  { hasClipboard := true, isSecureContext := true, writeTextFulfils := false,
    focusThrows := false, selectThrows := false, execCommand := some true }

/-- A page with one contact row: copy control 21 holding the icon 24, link 22
and text element 23. -/
def ContactItem.samplePage : ContactItem.Page :=
  { textContent := fun e => if e = 23 then " name@example.com " else "",
    classList := fun _ => [],
    className := fun e => if e = 24 then "fa-regular fa-copy" else "",
    icon := fun e => if e = 21 then some 24 else none,
    activeElement := none, timers := [], now := 0 }

/-- The contact item built on row 20 of the sample page. -/
def ContactItem.sampleItem : ContactItem.World :=
  { self := { element := 20, copyButton := some 21, contactLink := some 22,
              contactText := some 23 },
    page := ContactItem.samplePage, trace := [] }

/-- The sample item with an empty text element, after the user has put focus
on the copy control by activating it. -/
def ContactItem.emptyItem : ContactItem.World :=
  { ContactItem.sampleItem with
    page := { ContactItem.samplePage with textContent := fun _ => "   ",
                                          activeElement := some 21 } }

/-- The sample item whose copy control holds no icon. -/
def ContactItem.iconlessItem : ContactItem.World :=
  { ContactItem.sampleItem with
    page := { ContactItem.samplePage with icon := fun _ => none } }

/-- Two successful copies 500 ms apart, then both revert timers, which fire at
1500 ms and at 2000 ms. -/
def ContactItem.doubleCopy : List ContactItem.Event :=
  [.copyClick (some true), .elapse 500, .copyClick (some true), .elapse 1000, .timer 0,
   .elapse 500, .timer 0]

/-- Handlers that belong to another script. -/
def SocialButtons.Handler.isForeign : SocialButtons.Handler → Bool
  | .foreign _ => true
  | _ => false

/-- The number of `focus()` calls in a trace. -/
def SocialButtons.focusCalls (trace : List SocialButtons.Effect) : Nat :=
  trace.countP fun eff =>
    match eff with
    | .focus _ => true
    | _ => false

/-- The number of `blur()` calls in a trace. -/
def SocialButtons.blurCalls (trace : List SocialButtons.Effect) : Nat :=
  trace.countP fun eff =>
    match eff with
    | .blur _ => true
    | _ => false

/-- A listener is accounted for by the coordinator fields: it belongs to
another script, or it is the media-query listener, the window focus listener
or a button click listener that `destroy()` will find through the fields. -/
def SocialButtons.Fields.accountsFor (s : SocialButtons.Fields) (l : SocialButtons.Listener) :
    Prop :=
  l.handler.isForeign = true ∨
  (l = ⟨.desktopMediaQuery, "change", .handleDesktopMediaChange⟩ ∧ s.desktopMediaQuery = true ∧
    s.handleDesktopMediaChange = some .handleDesktopMediaChange) ∨
  (l = ⟨.window, "focus", .windowFocusHandler⟩ ∧
    s.windowFocusHandler = some .windowFocusHandler) ∨
  (∃ e, l = ⟨.element e, "click", .socialButtonClick e⟩ ∧
    (e, SocialButtons.Handler.socialButtonClick e) ∈ s.socialButtonHandlers)

/-- Every registered listener is accounted for by the coordinator fields. -/
def SocialButtons.World.tracked (w : SocialButtons.World) : Prop :=
  ∀ l ∈ w.page.listeners, w.self.accountsFor l

/-- The state that `destroy()` leaves: not desktop, no remembered button, and
none of the coordinator's listeners registered. -/
def SocialButtons.World.torndown (w : SocialButtons.World) : Prop :=
  w.self.isDesktop = false ∧ w.self.lastClickedButton = none ∧
  ∀ l ∈ w.page.listeners, l.handler.isForeign = true

/-- The part of the world that decides which listeners are registered and
which of them `destroy()` removes. -/
def SocialButtons.World.registry (w : SocialButtons.World) :
    List SocialButtons.Listener × Bool × Option SocialButtons.Handler ×
    Option SocialButtons.Handler × List (Elem × SocialButtons.Handler) :=
  (w.page.listeners, w.self.desktopMediaQuery, w.self.handleDesktopMediaChange,
   w.self.windowFocusHandler, w.self.socialButtonHandlers)

/-- The desktop page on which another script listens for window focus. -/
def SocialButtons.pageWithForeignListener : SocialButtons.Page :=
  { SocialButtons.desktopPage with listeners := [⟨.window, "focus", .foreign 0⟩] }

/-- After the second click on link 1 at 4000 ms the new tab takes the window
focus; the expiry timer of the first click fires at 5000 ms and the clock
reaches 6000 ms. -/
def SocialButtons.awayAfterSecondClick : List SocialButtons.Event :=
  [.windowBlur, .elapse 1000, .timer 0, .elapse 1000]

/-- After a click at 0 ms in a focused window: the frame, the first attempt at
50 ms, its blur at 150 ms and the second attempt at 200 ms. -/
def SocialButtons.bothAttempts : List SocialButtons.Event :=
  [.animationFrame, .elapse 50, .timer 1, .elapse 100, .timer 2, .elapse 50, .timer 1]

/-- Events that are neither a click nor `destroy()`. -/
def SocialButtons.Event.isPassive : SocialButtons.Event → Bool
  | .click _ => false
  | .destroy => false
  | _ => true

/-- Button `b` was clicked at clock value `clickedAt` with no older expiry
timer for `b` pending: every pending expiry timer for `b` is due 5000 ms after
that click or later, and `b` is remembered until then. -/
def SocialButtons.World.remembered (clickedAt : Nat) (b : Elem) (w : SocialButtons.World) :
    Prop :=
  (∀ t ∈ w.page.timers, t.callback = .clearLastClicked b → clickedAt + 5000 ≤ t.due) ∧
  (w.page.now < clickedAt + 5000 → w.self.lastClickedButton = some b) ∧
  ∀ cb ∈ w.page.rafQueue, cb ≠ .clearLastClicked b

/-- The full page whose markup already shows the modal: class `active` and
`aria-hidden="false"` on the modal element. -/
def QRModal.pageShownByMarkup : QRModal.Page :=
  { QRModal.fullPage with
    classList := fun e => if e = 1 then ["qr-modal", "active"] else [],
    getAttribute := fun e name =>
      if e = 1 ∧ name = "aria-hidden" then some "false" else none }

/-- The modal is present with its close control, and the flag `isOpen` agrees
with the class `active`, with `aria-hidden="false"` and with the body scroll
lock. -/
def QRModal.World.visible (modal : Elem) (w : QRModal.World) : Prop :=
  w.self.modal = some modal ∧ w.self.closeButton.isSome = true ∧
  (w.self.isOpen = true ↔ "active" ∈ w.page.classList modal) ∧
  (w.self.isOpen = true ↔ w.page.getAttribute modal "aria-hidden" = some "false") ∧
  (w.self.isOpen = true ↔ w.page.bodyOverflow = "hidden")

/-! ## QR modal: theorems -/

section QRModalFacts
open QRModal

@[simp] theorem QRModal.qr_perform_self (w : World) (eff : Effect) :
    (w.perform eff).self = w.self := rfl

@[simp] theorem QRModal.qr_perform_page (w : World) (eff : Effect) :
    (w.perform eff).page = eff.apply w.page := rfl

@[simp] theorem QRModal.qr_perform_trace (w : World) (eff : Effect) :
    (w.perform eff).trace = w.trace ++ [eff] := rfl

theorem QRModal.qr_blur_frame (e : Elem) (p : Page) :
    ((Effect.blur e).apply p).classList = p.classList ∧
    ((Effect.blur e).apply p).getAttribute = p.getAttribute ∧
    ((Effect.blur e).apply p).bodyOverflow = p.bodyOverflow ∧
    ((Effect.blur e).apply p).rafQueue = p.rafQueue ∧
    ((Effect.blur e).apply p).timers = p.timers ∧
    ((Effect.blur e).apply p).listeners = p.listeners ∧
    ((Effect.blur e).apply p).descendant = p.descendant ∧
    ((Effect.blur e).apply p).matchMedia = p.matchMedia ∧
    ((Effect.blur e).apply p).innerWidth = p.innerWidth ∧
    ((Effect.blur e).apply p).qrButton = p.qrButton := by
  by_cases h : p.activeElement = some e <;> simp [Effect.apply, h]

theorem QRModal.qr_open_fields (w : World) :
    (QRModal.open w).world.self.modal = w.self.modal ∧
    (QRModal.open w).world.self.closeButton = w.self.closeButton := by
  unfold QRModal.open
  cases hm : w.self.modal <;> cases hc : w.self.closeButton <;>
    by_cases hq : w.page.qrButton.isSome = true <;>
    simp [Outcome.ok, Outcome.typeError, hm, hc, hq]

theorem QRModal.qr_open_spec (w : World) (modal closeButton : Elem)
    (hmodal : w.self.modal = some modal) (hclose : w.self.closeButton = some closeButton) :
    (QRModal.open w).threw = false ∧
    (QRModal.open w).world.self.isOpen = true ∧
    "active" ∈ (QRModal.open w).world.page.classList modal ∧
    (QRModal.open w).world.page.getAttribute modal "aria-hidden" = some "false" ∧
    (QRModal.open w).world.page.activeElement
      = (if w.page.focusable closeButton = true then some closeButton
         else w.page.activeElement) ∧
    (QRModal.open w).world.page.bodyOverflow = "hidden" := by
  unfold QRModal.open
  by_cases hq : w.page.qrButton.isSome = true <;>
    by_cases ha : "active" ∈ w.page.classList modal <;>
    by_cases hfo : w.page.focusable closeButton = true <;>
    simp [Outcome.ok, Effect.apply, hq, ha, hfo, hmodal, hclose]

theorem QRModal.qr_open_focusable (w : World) :
    (QRModal.open w).world.page.focusable = w.page.focusable := by
  unfold QRModal.open
  rcases hm : w.self.modal with _ | modal
  · rfl
  · rcases hc : w.self.closeButton with _ | closeButton <;>
      by_cases hq : w.page.qrButton.isSome = true <;>
      by_cases ha : "active" ∈ w.page.classList modal <;>
      simp [Outcome.ok, Outcome.typeError, Effect.apply, hq, ha, hc]
    all_goals (by_cases hfo : w.page.focusable closeButton = true <;> simp [hfo])

theorem QRModal.qr_run_open_fields (n : Nat) (w : World) :
    (QRModal.run (List.replicate n Event.open) w).self.modal = w.self.modal ∧
    (QRModal.run (List.replicate n Event.open) w).self.closeButton = w.self.closeButton := by
  induction n generalizing w with
  | zero => exact ⟨rfl, rfl⟩
  | succ k ih =>
    have h := ih (Event.apply .open w)
    have h2 := QRModal.qr_open_fields w
    simp only [List.replicate_succ, QRModal.run, List.foldl_cons] at h ⊢
    exact ⟨h.1.trans h2.1, h.2.trans h2.2⟩

theorem QRModal.qr_run_open_focus (n : Nat) (w : World) (modal closeButton : Elem)
    (hmodal : w.self.modal = some modal) (hclose : w.self.closeButton = some closeButton) :
    (QRModal.run (List.replicate n Event.open) w).page.focusable = w.page.focusable ∧
    ((QRModal.run (List.replicate n Event.open) w).page.activeElement = w.page.activeElement ∨
     (w.page.focusable closeButton = true ∧
      (QRModal.run (List.replicate n Event.open) w).page.activeElement = some closeButton)) := by
  induction n generalizing w with
  | zero => exact ⟨rfl, Or.inl rfl⟩
  | succ k ih =>
    have hf := QRModal.qr_open_fields w
    have hs := QRModal.qr_open_spec w modal closeButton hmodal hclose
    have hp := QRModal.qr_open_focusable w
    have h := ih (Event.apply .open w) (hf.1.trans hmodal) (hf.2.trans hclose)
    simp only [List.replicate_succ, QRModal.run, List.foldl_cons] at h ⊢
    have hp2 : (Event.apply .open w).page.focusable = w.page.focusable := hp
    have hs2 : (Event.apply .open w).page.activeElement
        = (if w.page.focusable closeButton = true then some closeButton
           else w.page.activeElement) := hs.2.2.2.2.1
    refine ⟨h.1.trans hp2, ?_⟩
    rw [hp2, hs2] at h
    by_cases hfo : w.page.focusable closeButton = true
    · rcases h.2 with h3 | h3
      · exact Or.inr ⟨hfo, by rw [h3, if_pos hfo]⟩
      · exact Or.inr h3
    · rcases h.2 with h3 | h3
      · exact Or.inl (by rw [h3, if_neg hfo])
      · exact absurd h3.1 hfo

/-- C1, counterexample. On the page whose close control 3 is present but not
focusable, the constructor finds the modal 1 and the close control, and
`open()` returns normally with `isOpen` true, the class `active`, `aria-hidden`
`"false"` and the body overflow `"hidden"`. It calls `focus()` on the close
control, yet input focus is not on the close control afterwards: no element
holds it, as before the call. -/
theorem qr_open_unfocusable_close_control :
    (QRModal.construct QRModal.pageWithDisabledClose).self.modal = some 1 ∧
    (QRModal.construct QRModal.pageWithDisabledClose).self.closeButton = some 3 ∧
    (QRModal.open (QRModal.construct QRModal.pageWithDisabledClose)).threw = false ∧
    (QRModal.open (QRModal.construct QRModal.pageWithDisabledClose)).world.self.isOpen = true ∧
    "active" ∈
      (QRModal.open (QRModal.construct QRModal.pageWithDisabledClose)).world.page.classList 1 ∧
    (QRModal.open (QRModal.construct QRModal.pageWithDisabledClose)).world.page.getAttribute
      1 "aria-hidden" = some "false" ∧
    (QRModal.open (QRModal.construct QRModal.pageWithDisabledClose)).world.page.bodyOverflow
      = "hidden" ∧
    QRModal.Effect.focus 3 ∈
      (QRModal.open (QRModal.construct QRModal.pageWithDisabledClose)).world.trace ∧
    (QRModal.open (QRModal.construct QRModal.pageWithDisabledClose)).world.page.activeElement
      = none ∧
    (QRModal.open (QRModal.construct QRModal.pageWithDisabledClose)).world.page.activeElement
      ≠ some 3 := by
  decide

/-- C1, amended. `open()` on a controller whose modal element and close control
exist, called after any number `n` of earlier `open()` calls (so from the
Closed state when `n = 0` and from the Open state otherwise), returns normally
and leaves `isOpen` true, the class `active` on the modal, `aria-hidden` equal
to `"false"` and the body overflow `"hidden"`. Input focus is on the close
control when the close control is focusable; when it is not, focus is on the
element that held it before the calls. -/
theorem qr_open_makes_open (w : QRModal.World) (modal closeButton : Elem) (n : Nat)
    (hmodal : w.self.modal = some modal) (hclose : w.self.closeButton = some closeButton) :
    (QRModal.open (QRModal.run (List.replicate n .open) w)).threw = false ∧
    (QRModal.open (QRModal.run (List.replicate n .open) w)).world.self.isOpen = true ∧
    "active" ∈ (QRModal.open (QRModal.run (List.replicate n .open) w)).world.page.classList modal ∧
    (QRModal.open (QRModal.run (List.replicate n .open) w)).world.page.getAttribute
      modal "aria-hidden" = some "false" ∧
    (QRModal.open (QRModal.run (List.replicate n .open) w)).world.page.activeElement
      = (if w.page.focusable closeButton = true then some closeButton
         else w.page.activeElement) ∧
    (QRModal.open (QRModal.run (List.replicate n .open) w)).world.page.bodyOverflow = "hidden" := by
  have hs := QRModal.qr_open_spec (QRModal.run (List.replicate n .open) w) modal closeButton
    ((QRModal.qr_run_open_fields n w).1.trans hmodal)
    ((QRModal.qr_run_open_fields n w).2.trans hclose)
  have hr := QRModal.qr_run_open_focus n w modal closeButton hmodal hclose
  refine ⟨hs.1, hs.2.1, hs.2.2.1, hs.2.2.2.1, ?_, hs.2.2.2.2.2⟩
  rw [hs.2.2.2.2.1, hr.1]
  by_cases hfo : w.page.focusable closeButton = true
  · rw [if_pos hfo, if_pos hfo]
  · rw [if_neg hfo, if_neg hfo]
    rcases hr.2 with h3 | h3
    · exact h3
    · exact absurd h3.1 hfo

/-- Witness for C1 (amended): the third of three `open()` calls on the full
page, whose close control 3 is focusable. -/
theorem qr_open_makes_open_witness :
    (QRModal.open (QRModal.run (List.replicate 2 .open)
      (QRModal.construct QRModal.fullPage))).threw = false ∧
    (QRModal.open (QRModal.run (List.replicate 2 .open)
      (QRModal.construct QRModal.fullPage))).world.self.isOpen = true ∧
    "active" ∈ (QRModal.open (QRModal.run (List.replicate 2 .open)
      (QRModal.construct QRModal.fullPage))).world.page.classList 1 ∧
    (QRModal.open (QRModal.run (List.replicate 2 .open)
      (QRModal.construct QRModal.fullPage))).world.page.getAttribute 1 "aria-hidden"
      = some "false" ∧
    (QRModal.open (QRModal.run (List.replicate 2 .open)
      (QRModal.construct QRModal.fullPage))).world.page.activeElement = some 3 ∧
    (QRModal.open (QRModal.run (List.replicate 2 .open)
      (QRModal.construct QRModal.fullPage))).world.page.bodyOverflow = "hidden" :=
  qr_open_makes_open (QRModal.construct QRModal.fullPage) 1 3 2 rfl rfl

/-- C2. `close()` from the Open state with the modal present returns normally
and leaves `isOpen` false, the modal without the class `active`, `aria-hidden`
equal to `"true"` and the body overflow `""`. The animation-frame callback
that returns focus to QR button `b` is queued exactly when the viewport is
desktop (the media query matches, or `innerWidth > 768` when `matchMedia` is
unavailable) and `b` is the QR button: the reference stored by `open()` or,
when none is stored, the one found in the document. When the viewport is not
desktop or there is no QR button, nothing is queued. No timer is set. -/
theorem qr_close_from_open (w : QRModal.World) (modal : Elem)
    (hmodal : w.self.modal = some modal) (hopen : w.self.isOpen = true) :
    (QRModal.close w).threw = false ∧
    (QRModal.close w).world.self.isOpen = false ∧
    "active" ∉ (QRModal.close w).world.page.classList modal ∧
    (QRModal.close w).world.page.getAttribute modal "aria-hidden" = some "true" ∧
    (QRModal.close w).world.page.bodyOverflow = "" ∧
    (∀ b, (QRModal.close w).world.page.rafQueue = w.page.rafQueue ++ [.returnFocus b] ↔
      ((w.page.matchMedia = some true ∨ (w.page.matchMedia = none ∧ 768 < w.page.innerWidth)) ∧
       (w.self.qrButtonElement = some b ∨
         (w.self.qrButtonElement = none ∧ w.page.qrButton = some b)))) ∧
    ((QRModal.close w).world.page.rafQueue = w.page.rafQueue ↔
      ¬ ((w.page.matchMedia = some true ∨ (w.page.matchMedia = none ∧ 768 < w.page.innerWidth)) ∧
         (w.self.qrButtonElement.isSome ∨ w.page.qrButton.isSome))) ∧
    (QRModal.close w).world.page.timers = w.page.timers := by
  unfold QRModal.close QRModal.returnFocusToQRButton
  simp only [hmodal, hopen]
  rcases hf : w.page.focusedInside modal with _ | f
  · rcases hmm : w.page.matchMedia with _ | _ | _ <;>
      rcases hs : w.self.qrButtonElement with _ | s <;>
      rcases hq : w.page.qrButton with _ | q <;>
      by_cases hw : 768 < w.page.innerWidth <;>
      simp [Outcome.ok, Effect.apply, hmm, hs, hq, hw]
  · by_cases ha : w.page.activeElement = some f <;>
      rcases hmm : w.page.matchMedia with _ | _ | _ <;>
      rcases hs : w.self.qrButtonElement with _ | s <;>
      rcases hq : w.page.qrButton with _ | q <;>
      by_cases hw : 768 < w.page.innerWidth <;>
      simp [Outcome.ok, Effect.apply, hmm, hs, hq, hw, ha]

/-- Witness for C2: closing the modal that was just opened on the full page. -/
theorem qr_close_from_open_witness :
    (QRModal.close (QRModal.run [.open] (QRModal.construct QRModal.fullPage))).world.self.isOpen
      = false ∧
    (QRModal.close (QRModal.run [.open] (QRModal.construct QRModal.fullPage))).world.page.bodyOverflow
      = "" :=
  ⟨(qr_close_from_open (QRModal.run [.open] (QRModal.construct QRModal.fullPage)) 1 rfl rfl).2.1,
   (qr_close_from_open (QRModal.run [.open] (QRModal.construct QRModal.fullPage)) 1
      rfl rfl).2.2.2.2.1⟩

/-- C3. `close()` on a controller that is Closed, or whose modal element is
absent, returns normally and leaves the controller fields, the page (classes,
attributes, body overflow, focus, animation-frame queue, timers, listeners)
and the effect trace exactly as they were. -/
theorem qr_close_when_closed_is_noop (w : QRModal.World)
    (h : w.self.isOpen = false ∨ w.self.modal = none) :
    QRModal.close w = QRModal.Outcome.ok w := by
  unfold QRModal.close
  rcases h with h | h
  · cases hm : w.self.modal <;> simp [h]
  · simp [h]

/-- Witness for C3: `close()` right after construction on the full page. -/
theorem qr_close_when_closed_is_noop_witness :
    QRModal.close (QRModal.construct QRModal.fullPage)
      = QRModal.Outcome.ok (QRModal.construct QRModal.fullPage) :=
  qr_close_when_closed_is_noop (QRModal.construct QRModal.fullPage) (Or.inl rfl)

/-- C4. `handleKeydown(e)` is `close()` when `isOpen` is true and `e.key` is
`"Escape"`, and otherwise returns normally with the world (fields, page and
effect trace) unchanged; an `Escape` on a Closed controller changes nothing. -/
theorem qr_handleKeydown_spec (w : QRModal.World) (key : String) :
    QRModal.handleKeydown key w
      = (if w.self.isOpen = true ∧ key = "Escape" then QRModal.close w
         else QRModal.Outcome.ok w) ∧
    QRModal.handleKeydown "Escape" { w with self := { w.self with isOpen := false } }
      = QRModal.Outcome.ok { w with self := { w.self with isOpen := false } } := by
  unfold QRModal.handleKeydown
  cases hopen : w.self.isOpen <;> by_cases hk : key = "Escape" <;> simp [hk]

theorem QRModal.qr_returnFocus_cases (w : World) :
    QRModal.returnFocusToQRButton w = w ∨
    ∃ b, QRModal.returnFocusToQRButton w = w.perform (.requestAnimationFrame (.returnFocus b)) := by
  unfold QRModal.returnFocusToQRButton
  rcases hmm : w.page.matchMedia with _ | _ | _ <;>
    rcases hs : w.self.qrButtonElement with _ | s <;>
    rcases hq : w.page.qrButton with _ | q <;>
    by_cases hw : 768 < w.page.innerWidth <;>
    simp [hw] <;>
    exact Or.inr ⟨_, rfl⟩

theorem QRModal.qr_focusedInside_eq (p : Page) (root f : Elem)
    (h : p.focusedInside root = some f) : p.activeElement = some f := by
  unfold Page.focusedInside at h
  cases ha : p.activeElement with
  | none => simp [ha] at h
  | some e =>
    simp only [ha] at h
    by_cases hd : p.descendant root e = true
    · simp [hd] at h; simp [h]
    · simp [hd] at h

theorem QRModal.qr_returnFocus_result (w r : World)
    (h : QRModal.returnFocusToQRButton w = r) :
    r = w ∨ ∃ b, r = w.perform (.requestAnimationFrame (.returnFocus b)) := by
  subst h
  exact QRModal.qr_returnFocus_cases w

/-- C5. In `close()` from the Open state the effect trace grows by a list of
DOM calls that contains `setAttribute('aria-hidden', 'true')` on the modal, and
the page after `close()` is the replay of these calls. Wherever that call
stands in the list, no `blur()` follows it, and the page obtained by replaying
the calls made before it has no focused element inside the modal. -/
theorem qr_close_blurs_before_hiding (w : QRModal.World) (modal : Elem)
    (hmodal : w.self.modal = some modal) (hopen : w.self.isOpen = true) :
    ∃ effects : List QRModal.Effect,
      (QRModal.close w).world.trace = w.trace ++ effects ∧
      (QRModal.close w).world.page = QRModal.replay effects w.page ∧
      QRModal.Effect.setAttribute modal "aria-hidden" "true" ∈ effects ∧
      ∀ pre post,
        effects = pre ++ QRModal.Effect.setAttribute modal "aria-hidden" "true" :: post →
        (∀ e, QRModal.Effect.blur e ∉ post) ∧
        (QRModal.replay pre w.page).focusedInside modal = none := by
  unfold QRModal.close
  simp only [hmodal, hopen]
  rcases hf : w.page.focusedInside modal with _ | f
  · simp only [Outcome.ok]
    generalize hR : QRModal.returnFocusToQRButton _ = R
    rcases QRModal.qr_returnFocus_result _ _ hR with h | ⟨b, h⟩
    · subst h
      refine ⟨[.classListRemove modal "active", .setAttribute modal "aria-hidden" "true",
        .setBodyOverflow ""], by simp, by simp [QRModal.replay], by simp, ?_⟩
      intro pre post hsplit
      rcases pre with _ | ⟨a, _ | ⟨b, _ | ⟨c, pre⟩⟩⟩ <;> simp at hsplit
      obtain ⟨rfl, rfl⟩ := hsplit
      refine ⟨by simp, ?_⟩
      simpa [QRModal.replay, Effect.apply, Page.focusedInside] using hf
    · subst h
      refine ⟨[.classListRemove modal "active", .setAttribute modal "aria-hidden" "true",
        .setBodyOverflow "", .requestAnimationFrame (.returnFocus b)],
        by simp, by simp [QRModal.replay], by simp, ?_⟩
      intro pre post hsplit
      rcases pre with _ | ⟨a, _ | ⟨b, _ | ⟨c, _ | ⟨d, pre⟩⟩⟩⟩ <;> simp at hsplit
      obtain ⟨rfl, rfl⟩ := hsplit
      refine ⟨by simp, ?_⟩
      simpa [QRModal.replay, Effect.apply, Page.focusedInside] using hf
  · have ha := QRModal.qr_focusedInside_eq _ _ _ hf
    simp only [Outcome.ok]
    generalize hR : QRModal.returnFocusToQRButton _ = R
    rcases QRModal.qr_returnFocus_result _ _ hR with h | ⟨b, h⟩
    · subst h
      refine ⟨[.blur f, .classListRemove modal "active",
        .setAttribute modal "aria-hidden" "true", .setBodyOverflow ""],
        by simp, by simp [QRModal.replay], by simp, ?_⟩
      intro pre post hsplit
      rcases pre with _ | ⟨a, _ | ⟨b, _ | ⟨c, _ | ⟨d, pre⟩⟩⟩⟩ <;> simp at hsplit
      obtain ⟨rfl, rfl, rfl⟩ := hsplit
      refine ⟨by simp, ?_⟩
      simp [QRModal.replay, Effect.apply, Page.focusedInside, ha]
    · subst h
      refine ⟨[.blur f, .classListRemove modal "active",
        .setAttribute modal "aria-hidden" "true", .setBodyOverflow "",
        .requestAnimationFrame (.returnFocus b)],
        by simp, by simp [QRModal.replay], by simp, ?_⟩
      intro pre post hsplit
      rcases pre with _ | ⟨a, _ | ⟨b, _ | ⟨c, _ | ⟨d, _ | ⟨e, pre⟩⟩⟩⟩⟩ <;> simp at hsplit
      obtain ⟨rfl, rfl, rfl⟩ := hsplit
      refine ⟨by simp, ?_⟩
      simp [QRModal.replay, Effect.apply, Page.focusedInside, ha]

/-- Witness for C5: closing the modal opened on the full page, where the close
control inside the modal holds focus. -/
theorem qr_close_blurs_before_hiding_witness :
    ∃ effects : List QRModal.Effect,
      (QRModal.close (QRModal.run [.open] (QRModal.construct QRModal.fullPage))).world.trace
        = (QRModal.run [.open] (QRModal.construct QRModal.fullPage)).trace ++ effects ∧
      (QRModal.close (QRModal.run [.open] (QRModal.construct QRModal.fullPage))).world.page
        = QRModal.replay effects (QRModal.run [.open] (QRModal.construct QRModal.fullPage)).page ∧
      QRModal.Effect.setAttribute 1 "aria-hidden" "true" ∈ effects ∧
      ∀ pre post,
        effects = pre ++ QRModal.Effect.setAttribute 1 "aria-hidden" "true" :: post →
        (∀ e, QRModal.Effect.blur e ∉ post) ∧
        (QRModal.replay pre (QRModal.run [.open] (QRModal.construct QRModal.fullPage)).page
          ).focusedInside 1 = none :=
  qr_close_blurs_before_hiding (QRModal.run [.open] (QRModal.construct QRModal.fullPage)) 1 rfl rfl

/-- The effect trace of `close()` on the full page after one `open()`: the
close control 3 is blurred first, and the modal is marked hidden afterwards. -/
theorem qr_close_trace_on_full_page :
    (QRModal.close (QRModal.run [.open] (QRModal.construct QRModal.fullPage))).world.trace
      = (QRModal.run [.open] (QRModal.construct QRModal.fullPage)).trace ++
        [.blur 3, .classListRemove 1 "active", .setAttribute 1 "aria-hidden" "true",
         .setBodyOverflow "", .requestAnimationFrame (.returnFocus 6)] := by
  decide

/-- C6, counterexample. On the full page, whose close control 3 and QR button 6
are focusable, the modal is opened and the user then activates the QR button
again, which takes focus. The state is Open, yet this second `open()` moves
focus to the close control and lengthens the
animation-frame queue from one callback to two: the state after differs from
the state before. -/
theorem qr_open_when_open_not_noop :
    (QRModal.run [.open, .userFocus (some 6)] (QRModal.construct QRModal.fullPage)).self.isOpen
      = true ∧
    (QRModal.run [.open, .userFocus (some 6)] (QRModal.construct QRModal.fullPage)
      ).page.activeElement = some 6 ∧
    (QRModal.open (QRModal.run [.open, .userFocus (some 6)]
      (QRModal.construct QRModal.fullPage))).world.page.activeElement = some 3 ∧
    (QRModal.run [.open, .userFocus (some 6)] (QRModal.construct QRModal.fullPage)
      ).page.rafQueue = [.blurQrButtonElement] ∧
    (QRModal.open (QRModal.run [.open, .userFocus (some 6)]
      (QRModal.construct QRModal.fullPage))).world.page.rafQueue
      = [.blurQrButtonElement, .blurQrButtonElement] := by
  decide

/-- C6, amended. `open()` on a controller in the Open configuration (`isOpen`
true, the modal with class `active` and `aria-hidden` `"false"`, body overflow
`"hidden"`, close control present) returns normally and leaves `isOpen`, every
class list, every attribute, the body overflow, the timers and the listeners
as they were. It is not a no-op: when the close control is focusable, focus
ends on the close control whichever element held it (when it is not, focus
stays where it was), and when a QR button is in the document one more
animation-frame callback that blurs it is queued. -/
theorem qr_open_when_open (w : QRModal.World) (modal closeButton : Elem)
    (hmodal : w.self.modal = some modal) (hclose : w.self.closeButton = some closeButton)
    (hopen : w.self.isOpen = true) (hactive : "active" ∈ w.page.classList modal)
    (haria : w.page.getAttribute modal "aria-hidden" = some "false")
    (hoverflow : w.page.bodyOverflow = "hidden") :
    (QRModal.open w).threw = false ∧
    (QRModal.open w).world.self.isOpen = w.self.isOpen ∧
    (QRModal.open w).world.page.classList = w.page.classList ∧
    (QRModal.open w).world.page.getAttribute = w.page.getAttribute ∧
    (QRModal.open w).world.page.bodyOverflow = w.page.bodyOverflow ∧
    (QRModal.open w).world.page.timers = w.page.timers ∧
    (QRModal.open w).world.page.listeners = w.page.listeners ∧
    (QRModal.open w).world.page.activeElement
      = (if w.page.focusable closeButton = true then some closeButton
         else w.page.activeElement) ∧
    (QRModal.open w).world.page.rafQueue
      = w.page.rafQueue ++ (if w.page.qrButton.isSome then [.blurQrButtonElement] else []) := by
  have hattr : (fun x n => if x = modal ∧ n = "aria-hidden" then some "false"
      else w.page.getAttribute x n) = w.page.getAttribute := by
    funext x n
    by_cases hx : x = modal ∧ n = "aria-hidden"
    · simp [hx, haria]
    · simp [hx]
  unfold QRModal.open
  by_cases hq : w.page.qrButton.isSome = true <;>
    by_cases hfo : w.page.focusable closeButton = true <;>
    simp [Outcome.ok, Effect.apply, hq, hfo, hactive, hmodal, hclose, hopen, hoverflow, hattr]

/-- Witness for C6 (amended): the second `open()` of the counterexample, on the
full page, whose close control 3 is focusable. -/
theorem qr_open_when_open_witness :
    (QRModal.open (QRModal.run [.open, .userFocus (some 6)]
      (QRModal.construct QRModal.fullPage))).world.page.bodyOverflow = "hidden" ∧
    (QRModal.open (QRModal.run [.open, .userFocus (some 6)]
      (QRModal.construct QRModal.fullPage))).world.page.activeElement = some 3 :=
  ⟨((qr_open_when_open (QRModal.run [.open, .userFocus (some 6)]
      (QRModal.construct QRModal.fullPage)) 1 3 rfl rfl rfl (by decide) rfl rfl).2.2.2.2.1).trans
      rfl,
   (qr_open_when_open (QRModal.run [.open, .userFocus (some 6)]
      (QRModal.construct QRModal.fullPage)) 1 3 rfl rfl rfl (by decide) rfl rfl).2.2.2.2.2.2.2.1⟩

/-- Which calls throw: `open()` throws exactly when the modal is present and
the close control is absent; the other methods never throw. -/
theorem QRModal.qr_throws (w : World) (key : String) :
    ((QRModal.open w).threw = true ↔ (w.self.modal.isSome ∧ w.self.closeButton = none)) ∧
    (QRModal.close w).threw = false ∧
    (QRModal.handleKeydown key w).threw = false ∧
    (QRModal.downloadQR w).threw = false ∧
    (QRModal.destroy w).threw = false := by
  have hc : (QRModal.close w).threw = false := by
    unfold QRModal.close
    cases hm : w.self.modal <;> cases ho : w.self.isOpen <;> simp [Outcome.ok]
  refine ⟨?_, hc, ?_, ?_, ?_⟩
  · unfold QRModal.open
    cases hm : w.self.modal <;> cases hcl : w.self.closeButton <;>
      by_cases hq : w.page.qrButton.isSome = true <;>
      simp [Outcome.ok, Outcome.typeError, hq, hcl]
  · unfold QRModal.handleKeydown
    cases ho : w.self.isOpen <;> by_cases hk : key = "Escape" <;> simp [Outcome.ok, hk, hc]
  · unfold QRModal.downloadQR
    cases hi : w.self.qrImage <;> simp [Outcome.ok]
  · simp [QRModal.destroy, Outcome.ok]

/-- C7, the failing input. On a page that has the modal but no close control,
the constructor succeeds and `open()` throws a `TypeError` at
`this.closeButton.focus()`: by then `isOpen` is true and the modal is shown,
and the statement that disables page scroll is never reached, so the body
overflow is still `""`. -/
theorem qr_open_without_close_control_throws :
    (QRModal.construct QRModal.pageWithoutClose).self.modal = some 1 ∧
    (QRModal.construct QRModal.pageWithoutClose).self.closeButton = none ∧
    (QRModal.open (QRModal.construct QRModal.pageWithoutClose)).threw = true ∧
    (QRModal.open (QRModal.construct QRModal.pageWithoutClose)).world.self.isOpen = true ∧
    "active" ∈ (QRModal.open (QRModal.construct QRModal.pageWithoutClose)).world.page.classList 1 ∧
    (QRModal.open (QRModal.construct QRModal.pageWithoutClose)).world.page.bodyOverflow = "" := by
  decide

theorem QRModal.qr_apply_listeners (eff : Effect) (p : Page) (h : eff.keepsListeners = true) :
    (eff.apply p).listeners = p.listeners := by
  cases eff <;> simp [Effect.keepsListeners] at h <;> simp only [Effect.apply] <;>
    first
      | rfl
      | (split <;> rfl)

theorem QRModal.qr_perform_binding (w : World) (eff : Effect) (h : eff.keepsListeners = true) :
    (w.perform eff).binding = w.binding := by
  simp [World.binding, QRModal.qr_apply_listeners eff w.page h]

theorem QRModal.qr_callback_binding (cb : Callback) (w : World) :
    (cb.run w).binding = w.binding := by
  cases cb with
  | blurQrButtonElement =>
    simp only [Callback.run]
    split
    · exact QRModal.qr_perform_binding _ _ rfl
    · rfl
  | returnFocus b =>
    simp only [Callback.run]
    rw [QRModal.qr_perform_binding _ _ (by rfl), QRModal.qr_perform_binding _ _ (by rfl)]
  | blurIfActive b =>
    simp only [Callback.run]
    split
    · exact QRModal.qr_perform_binding _ _ rfl
    · rfl

theorem QRModal.qr_foldl_binding (q : List Callback) (w : World) :
    (q.foldl (fun acc cb => cb.run acc) w).binding = w.binding := by
  induction q generalizing w with
  | nil => rfl
  | cons cb rest ih =>
    simp only [List.foldl_cons]
    rw [ih, QRModal.qr_callback_binding]

theorem QRModal.qr_open_binding (w : World) :
    (QRModal.open w).world.binding = w.binding := by
  unfold QRModal.open
  cases hm : w.self.modal <;> cases hcl : w.self.closeButton <;>
    by_cases hq : w.page.qrButton.isSome = true <;>
    simp [Outcome.ok, Outcome.typeError, World.binding, QRModal.qr_apply_listeners,
      Effect.keepsListeners, hq, hcl]

theorem QRModal.qr_close_binding (w : World) :
    (QRModal.close w).world.binding = w.binding := by
  unfold QRModal.close
  cases hm : w.self.modal with
  | none => rfl
  | some modal =>
    cases ho : w.self.isOpen with
    | false => rfl
    | true =>
      simp only [Outcome.ok, Bool.not_true, Bool.false_eq_true, if_false]
      generalize hR : QRModal.returnFocusToQRButton _ = R
      rcases QRModal.qr_returnFocus_result _ _ hR with h | ⟨b, h⟩ <;> subst h <;>
        cases hf : w.page.focusedInside modal <;>
        simp [World.binding, QRModal.qr_apply_listeners, Effect.keepsListeners]

theorem QRModal.qr_event_binding (ev : Event) (w : World) :
    (ev.apply w).binding = w.binding := by
  match ev with
  | .open => exact QRModal.qr_open_binding w
  | .close => exact QRModal.qr_close_binding w
  | .keydown key =>
    simp only [Event.apply, QRModal.handleKeydown]
    cases ho : w.self.isOpen <;> by_cases hk : key = "Escape" <;>
      simp [Outcome.ok, hk, QRModal.qr_close_binding]
  | .downloadQR =>
    simp only [Event.apply, QRModal.downloadQR]
    cases hi : w.self.qrImage <;>
      simp [Outcome.ok, World.binding, QRModal.qr_apply_listeners, Effect.keepsListeners]
  | .animationFrame =>
    simp only [Event.apply]
    rw [QRModal.qr_foldl_binding]
    rfl
  | .timer index =>
    simp only [Event.apply]
    split
    · rw [QRModal.qr_callback_binding]
      rfl
    · rfl
  | .userFocus target => rfl

theorem QRModal.qr_run_binding (events : List Event) (w : World) :
    (QRModal.run events w).binding = w.binding := by
  induction events generalizing w with
  | nil => rfl
  | cons ev rest ih =>
    simp only [QRModal.run, List.foldl_cons]
    exact (ih (ev.apply w)).trans (QRModal.qr_event_binding ev w)

theorem QRModal.qr_unlisten (w : World) (target : Option Elem) (type : String)
    (handler : Option Handler) :
    (w.unlisten target type handler).self = w.self ∧
    (w.unlisten target type handler).page
      = { w.page with listeners :=
            QRModal.without w.page.listeners (target.map .element) type handler } := by
  cases target <;> cases handler <;> simp [World.unlisten, Effect.apply, QRModal.without]

theorem QRModal.qr_destroy_frame (w : World) :
    (QRModal.destroy w).threw = false ∧
    (QRModal.destroy w).world.self.isOpen = false ∧
    (QRModal.destroy w).world.page.bodyOverflow = "" ∧
    (QRModal.destroy w).world.page.classList = w.page.classList ∧
    (QRModal.destroy w).world.page.getAttribute = w.page.getAttribute ∧
    (QRModal.destroy w).world.page.activeElement = w.page.activeElement ∧
    (QRModal.destroy w).world.self.handleQrButtonClick = none ∧
    (QRModal.destroy w).world.self.handleCloseClick = none ∧
    (QRModal.destroy w).world.self.handleBackdropClick = none ∧
    (QRModal.destroy w).world.self.handleDownloadClick = none ∧
    (QRModal.destroy w).world.self.handleDocumentKeydown = none := by
  unfold QRModal.destroy
  cases hk : w.self.handleDocumentKeydown <;>
    simp [Outcome.ok, QRModal.qr_unlisten, Effect.apply, hk]

theorem QRModal.qr_destroy_listeners (w : World) :
    (QRModal.destroy w).world.page.listeners =
      QRModal.without
        (QRModal.without
          (QRModal.without
            (QRModal.without
              (QRModal.without w.page.listeners
                (w.self.qrButton.map .element) "click" w.self.handleQrButtonClick)
              (w.self.closeButton.map .element) "click" w.self.handleCloseClick)
            (w.self.backdrop.map .element) "click" w.self.handleBackdropClick)
          (w.self.downloadButton.map .element) "click" w.self.handleDownloadClick)
        (some .document) "keydown" w.self.handleDocumentKeydown := by
  unfold QRModal.destroy
  cases hk : w.self.handleDocumentKeydown <;>
    simp [Outcome.ok, QRModal.qr_unlisten, Effect.apply, hk, QRModal.without]

theorem QRModal.qr_destroy_listeners_congr (w w0 : World) (h : w.binding = w0.binding) :
    (QRModal.destroy w).world.page.listeners = (QRModal.destroy w0).world.page.listeners := by
  rw [QRModal.qr_destroy_listeners, QRModal.qr_destroy_listeners]
  simp only [World.binding, Prod.mk.injEq] at h
  obtain ⟨⟨h1, h2, h3, h4⟩, ⟨h5, h6, h7, h8, h9⟩, h10⟩ := h
  rw [h1, h2, h3, h4, h5, h6, h7, h8, h9, h10]

theorem QRModal.qr_destroy_construct (p : Page)
    (hforeign : ∀ l ∈ p.listeners, ∃ id, l.handler = .foreign id) :
    (QRModal.destroy (QRModal.construct p)).world.page.listeners = p.listeners := by
  have hmem : ∀ (t : Target) (ty : String) (h : Handler), (∀ id, h ≠ .foreign id) →
      (⟨t, ty, h⟩ : Listener) ∉ p.listeners := by
    intro t ty h hh hin
    obtain ⟨id, hid⟩ := hforeign _ hin
    exact hh id hid
  have hfil : ∀ (t : Target) (ty : String) (h : Handler), (∀ id, h ≠ .foreign id) →
      p.listeners.filter (fun x => !decide (x = (⟨t, ty, h⟩ : Listener))) = p.listeners := by
    intro t ty h hh
    rw [List.filter_eq_self]
    intro a ha
    have := hmem t ty h hh
    simp only [Bool.not_eq_true', decide_eq_false_iff_not]
    intro heq
    exact this (heq ▸ ha)
  have m1 := fun t ty => hmem t ty .handleQrButtonClick (by simp)
  have m2 := fun t ty => hmem t ty .handleCloseClick (by simp)
  have m3 := fun t ty => hmem t ty .handleBackdropClick (by simp)
  have m4 := fun t ty => hmem t ty .handleDownloadClick (by simp)
  have m5 := fun t ty => hmem t ty .handleDocumentKeydown (by simp)
  have f1 := fun t ty => hfil t ty .handleQrButtonClick (by simp)
  have f2 := fun t ty => hfil t ty .handleCloseClick (by simp)
  have f3 := fun t ty => hfil t ty .handleBackdropClick (by simp)
  have f4 := fun t ty => hfil t ty .handleDownloadClick (by simp)
  have f5 := fun t ty => hfil t ty .handleDocumentKeydown (by simp)
  rw [QRModal.qr_destroy_listeners]
  unfold QRModal.construct QRModal.init QRModal.bindEvents
  cases h0 : p.qrModal with
  | none => simp [QRModal.without, Fields.initial, h0]
  | some modal =>
    cases h1 : p.qrButton <;> cases h2 : p.modalClose <;> cases h3 : p.modalBackdrop <;>
      cases h4 : p.qrDownloadBtn <;>
      simp [QRModal.without, Fields.initial, World.listen, Effect.apply, h0, h1, h2, h3, h4,
        m1, m2, m3, m4, m5, f1, f2, f3, f4, f5, List.filter_append]

/-- What `destroy()` does. Take a page whose listeners all belong to other
scripts, construct the controller and let any sequence of events happen
(method calls, animation frames, timers, focus moves). Then `destroy()` returns
normally, the registered listeners are again exactly those of the page before
construction (every listener added by `bindEvents` is detached), the five
handler fields are null, `isOpen` is false and the body overflow is `""`. No
statement of `destroy()` touches a class list or an attribute: they are what
they were before the call. -/
theorem QRModal.qr_destroy_detaches (p : QRModal.Page) (events : List QRModal.Event)
    (hforeign : ∀ l ∈ p.listeners, ∃ id, l.handler = .foreign id) :
    (QRModal.destroy (QRModal.run events (QRModal.construct p))).threw = false ∧
    (QRModal.destroy (QRModal.run events (QRModal.construct p))).world.page.listeners
      = p.listeners ∧
    (QRModal.destroy (QRModal.run events (QRModal.construct p))).world.self.handleQrButtonClick
      = none ∧
    (QRModal.destroy (QRModal.run events (QRModal.construct p))).world.self.handleCloseClick
      = none ∧
    (QRModal.destroy (QRModal.run events (QRModal.construct p))).world.self.handleBackdropClick
      = none ∧
    (QRModal.destroy (QRModal.run events (QRModal.construct p))).world.self.handleDownloadClick
      = none ∧
    (QRModal.destroy (QRModal.run events (QRModal.construct p))).world.self.handleDocumentKeydown
      = none ∧
    (QRModal.destroy (QRModal.run events (QRModal.construct p))).world.self.isOpen = false ∧
    (QRModal.destroy (QRModal.run events (QRModal.construct p))).world.page.bodyOverflow = "" ∧
    (QRModal.destroy (QRModal.run events (QRModal.construct p))).world.page.classList
      = (QRModal.run events (QRModal.construct p)).page.classList ∧
    (QRModal.destroy (QRModal.run events (QRModal.construct p))).world.page.getAttribute
      = (QRModal.run events (QRModal.construct p)).page.getAttribute := by
  have hf := QRModal.qr_destroy_frame (QRModal.run events (QRModal.construct p))
  have hl := (QRModal.qr_destroy_listeners_congr _ _
    (QRModal.qr_run_binding events (QRModal.construct p))).trans
    (QRModal.qr_destroy_construct p hforeign)
  exact ⟨hf.1, hl, hf.2.2.2.2.2.2.1, hf.2.2.2.2.2.2.2.1, hf.2.2.2.2.2.2.2.2.1,
    hf.2.2.2.2.2.2.2.2.2.1, hf.2.2.2.2.2.2.2.2.2.2, hf.2.1, hf.2.2.1, hf.2.2.2.1,
    hf.2.2.2.2.1⟩

/-- Open, Escape, open again, then `destroy()`, on a page that carries a
listener of another script: only that listener is left, and `isOpen` is false. -/
theorem QRModal.qr_destroy_detaches_on_sample :
    (QRModal.destroy (QRModal.run [.open, .keydown "Escape", .animationFrame, .open]
      (QRModal.construct QRModal.pageWithForeignListener))).world.page.listeners
      = [⟨.document, "keydown", .foreign 0⟩] ∧
    (QRModal.destroy (QRModal.run [.open, .keydown "Escape", .animationFrame, .open]
      (QRModal.construct QRModal.pageWithForeignListener))).world.self.isOpen = false :=
  ⟨(QRModal.qr_destroy_detaches QRModal.pageWithForeignListener
      [.open, .keydown "Escape", .animationFrame, .open]
      (by intro l hl; exact ⟨0, by simp [QRModal.pageWithForeignListener] at hl; simp [hl]⟩)).2.1,
   (QRModal.qr_destroy_detaches QRModal.pageWithForeignListener
      [.open, .keydown "Escape", .animationFrame, .open]
      (by intro l hl; exact ⟨0, by simp [QRModal.pageWithForeignListener] at hl; simp [hl]⟩)
      ).2.2.2.2.2.2.2.1⟩

/-- C8, the failing input. On the full page the controller is constructed and
`open()` is called, a state reached by `open` alone; then `destroy()` runs. It
returns normally, detaches every listener that `bindEvents` registered, and
under its comment `// Reset state` sets `isOpen` to false and the body
overflow to `""`. The modal element is not reset: it still carries the class
`active` and `aria-hidden` `"false"`, so the page is not in the Closed state
that `close()` produces from the same state (no class `active`, `aria-hidden`
`"true"`), and no listener is left through which the modal could be closed. -/
theorem qr_destroy_leaves_modal_shown :
    (QRModal.run [.open] (QRModal.construct QRModal.fullPage)).self.isOpen = true ∧
    (QRModal.destroy (QRModal.run [.open] (QRModal.construct QRModal.fullPage))).threw = false ∧
    (QRModal.destroy (QRModal.run [.open]
      (QRModal.construct QRModal.fullPage))).world.page.listeners = [] ∧
    (QRModal.destroy (QRModal.run [.open]
      (QRModal.construct QRModal.fullPage))).world.self.isOpen = false ∧
    (QRModal.destroy (QRModal.run [.open]
      (QRModal.construct QRModal.fullPage))).world.page.bodyOverflow = "" ∧
    "active" ∈ (QRModal.destroy (QRModal.run [.open]
      (QRModal.construct QRModal.fullPage))).world.page.classList 1 ∧
    (QRModal.destroy (QRModal.run [.open]
      (QRModal.construct QRModal.fullPage))).world.page.getAttribute 1 "aria-hidden"
      = some "false" ∧
    "active" ∉ (QRModal.close (QRModal.run [.open]
      (QRModal.construct QRModal.fullPage))).world.page.classList 1 ∧
    (QRModal.close (QRModal.run [.open]
      (QRModal.construct QRModal.fullPage))).world.page.getAttribute 1 "aria-hidden"
      = some "true" := by
  decide

end QRModalFacts

/-! ## Social buttons: theorems -/

section SocialButtonsFacts
open SocialButtons

@[simp] theorem SocialButtons.sb_perform_self (w : World) (eff : Effect) :
    (w.perform eff).self = w.self := rfl

@[simp] theorem SocialButtons.sb_perform_page (w : World) (eff : Effect) :
    (w.perform eff).page = eff.apply w.page := rfl

@[simp] theorem SocialButtons.sb_perform_trace (w : World) (eff : Effect) :
    (w.perform eff).trace = w.trace ++ [eff] := rfl

theorem SocialButtons.sb_apply_timers (eff : Effect) (p : Page) (t : Timer)
    (h : t ∈ p.timers) : t ∈ (eff.apply p).timers := by
  cases eff <;> simp only [Effect.apply]
  case blur e => split <;> exact h
  case focus e => exact h
  case addEventListener l => split <;> exact h
  case removeEventListener l => exact h
  case requestAnimationFrame cb => exact h
  case setTimeout cb delay => exact List.mem_append_left _ h

theorem SocialButtons.sb_perform_pending (T : Nat) (w : World) (eff : Effect)
    (h : w.expiryPending T) : (w.perform eff).expiryPending T := by
  intro b hb
  obtain ⟨t, ht, hcb, hdue⟩ := h b hb
  exact ⟨t, SocialButtons.sb_apply_timers eff w.page t ht, hcb, hdue⟩

theorem SocialButtons.sb_callback_pending (T : Nat) (cb : Callback) (w : World)
    (h : w.expiryPending T) : (cb.run w).expiryPending T := by
  cases cb with
  | blurClicked b => exact SocialButtons.sb_perform_pending T _ _ h
  | scheduleAttempts b =>
    exact SocialButtons.sb_perform_pending T _ _ (SocialButtons.sb_perform_pending T _ _ h)
  | firstAttempt b =>
    simp only [Callback.run]
    split
    · split
      · exact SocialButtons.sb_perform_pending T _ _ (SocialButtons.sb_perform_pending T _ _ h)
      · exact h
    · exact h
  | secondAttempt b =>
    simp only [Callback.run]
    split
    · split
      · exact SocialButtons.sb_perform_pending T _ _ (SocialButtons.sb_perform_pending T _ _ h)
      · exact h
    · exact h
  | blurIfActive b =>
    simp only [Callback.run]
    split
    · exact SocialButtons.sb_perform_pending T _ _ h
    · exact h
  | focusLastClicked =>
    simp only [Callback.run]
    split
    · exact SocialButtons.sb_perform_pending T _ _ (SocialButtons.sb_perform_pending T _ _ h)
    · exact h
  | blurLastClicked =>
    simp only [Callback.run]
    split
    · split
      · exact SocialButtons.sb_perform_pending T _ _ h
      · exact h
    · exact h
  | clearLastClicked b =>
    simp only [Callback.run]
    split
    · intro b' hb'
      simp at hb'
    · exact h

theorem SocialButtons.sb_foldl_pending (T : Nat) (q : List Callback) (w : World)
    (h : w.expiryPending T) : (q.foldl (fun acc cb => cb.run acc) w).expiryPending T := by
  induction q generalizing w with
  | nil => exact h
  | cons cb rest ih =>
    simp only [List.foldl_cons]
    exact ih _ (SocialButtons.sb_callback_pending T cb w h)

theorem SocialButtons.sb_mem_eraseIdx {α : Type} (l : List α) (i : Nat) (t t' : α)
    (ht : t ∈ l) (hi : l.get? i = some t') (hne : t ≠ t') : t ∈ l.eraseIdx i := by
  obtain ⟨j, hj⟩ := List.getElem?_of_mem ht
  rw [List.mem_eraseIdx_iff_getElem?]
  refine ⟨j, ?_, hj⟩
  intro hji
  subst hji
  rw [List.get?_eq_getElem?] at hi
  rw [hi] at hj
  exact hne (Option.some.inj hj).symm

theorem SocialButtons.sb_timer_pending (T : Nat) (index : Nat) (w : World)
    (h : w.expiryPending T) : (Event.apply (.timer index) w).expiryPending T := by
  simp only [Event.apply]
  cases hget : w.page.timers.get? index with
  | none => exact h
  | some t =>
    simp only []
    split
    · by_cases hcb : ∃ b', t.callback = .clearLastClicked b'
      · obtain ⟨b', hb'⟩ := hcb
        rw [hb']
        simp only [Callback.run]
        split
        · intro b hb
          simp at hb
        · rename_i hlast
          intro b hb
          obtain ⟨t0, ht0, hcb0, hdue0⟩ := h b hb
          refine ⟨t0, SocialButtons.sb_mem_eraseIdx _ _ _ _ ht0 hget ?_, hcb0, hdue0⟩
          intro heq
          subst heq
          rw [hb'] at hcb0
          injection hcb0 with hbb
          subst hbb
          exact hlast hb
      · apply SocialButtons.sb_callback_pending
        intro b hb
        obtain ⟨t0, ht0, hcb0, hdue0⟩ := h b hb
        refine ⟨t0, SocialButtons.sb_mem_eraseIdx _ _ _ _ ht0 hget ?_, hcb0, hdue0⟩
        intro heq
        subst heq
        exact hcb ⟨b, hcb0⟩
    · exact h

theorem SocialButtons.sb_event_pending (T : Nat) (ev : Event) (w : World)
    (hev : ev.isClick = false) (h : w.expiryPending T) : (ev.apply w).expiryPending T := by
  cases ev with
  | click b => simp [Event.isClick] at hev
  | animationFrame =>
    simp only [Event.apply]
    exact SocialButtons.sb_foldl_pending T _ _ h
  | elapse ms => exact h
  | timer index => exact SocialButtons.sb_timer_pending T index w h
  | windowFocus =>
    simp only [Event.apply, SocialButtons.windowFocusHandler]
    split
    · split
      · exact SocialButtons.sb_perform_pending T _ _ h
      · exact h
    · exact h
  | windowBlur => exact h
  | mediaChange isMatch =>
    simp only [Event.apply]
    split
    · exact h
    · exact h
  | userFocus target => exact h
  | destroy =>
    intro b hb
    simp [Event.apply, SocialButtons.destroy] at hb

theorem SocialButtons.sb_run_pending (T : Nat) (events : List Event) (w : World)
    (hev : ∀ ev ∈ events, ev.isClick = false) (h : w.expiryPending T) :
    (SocialButtons.run events w).expiryPending T := by
  induction events generalizing w with
  | nil => exact h
  | cons ev rest ih =>
    simp only [SocialButtons.run, List.foldl_cons]
    exact ih _ (fun e he => hev e (List.mem_cons_of_mem _ he))
      (SocialButtons.sb_event_pending T ev w (hev ev (List.mem_cons_self _ _)) h)

theorem SocialButtons.sb_click_pending (button : Elem) (w : World)
    (hdesktop : w.self.isDesktop = true) :
    (SocialButtons.handleSocialButtonClick button w).expiryPending w.page.now := by
  intro b hb
  unfold SocialButtons.handleSocialButtonClick SocialButtons.setupWindowFocusHandler at hb ⊢
  cases hh : w.self.windowFocusHandler <;>
    by_cases hm : (⟨.window, "focus", .windowFocusHandler⟩ : Listener) ∈ w.page.listeners <;>
    simp [hdesktop, hh, hm, Effect.apply] at hb ⊢ <;>
    subst hb <;>
    exact ⟨⟨_, _⟩, Or.inr rfl, rfl, le_refl _⟩

/-- C9. With `isDesktop` false, `handleSocialButtonClick` leaves the whole world
as it was: no field changes (`lastClickedButton` included), no timer and no
animation-frame callback is queued, no listener is registered, and the effect
trace does not grow. -/
theorem sb_click_off_desktop_is_noop (w : SocialButtons.World) (button : Elem)
    (hmobile : w.self.isDesktop = false) :
    SocialButtons.handleSocialButtonClick button w = w := by
  simp [SocialButtons.handleSocialButtonClick, hmobile]

/-- Witness for C9: a click on link 1 on the mobile page. -/
theorem sb_click_off_desktop_is_noop_witness :
    SocialButtons.handleSocialButtonClick 1 (SocialButtons.construct SocialButtons.mobilePage)
      = SocialButtons.construct SocialButtons.mobilePage :=
  sb_click_off_desktop_is_noop (SocialButtons.construct SocialButtons.mobilePage) 1 (by decide)

/-- C10. Start from any state of a desktop coordinator (any earlier clicks),
click a button, and let any events other than clicks follow: animation frames,
timers firing, time passing, window focus and blur, media changes, focus
moves. Once the clock is more than 5000 ms past the click and no pending timer
is due, `lastClickedButton` is null; a window `focus` event arriving then only
records that the document has focus: it queues no callback, calls no `focus()`
and leaves every field as it was. -/
theorem sb_pending_focus_return_expires (w : SocialButtons.World) (button : Elem)
    (later : List SocialButtons.Event)
    (hdesktop : w.self.isDesktop = true)
    (hlater : ∀ ev ∈ later, ev.isClick = false)
    (hlate : w.page.now + 5000
      < (SocialButtons.run later (SocialButtons.handleSocialButtonClick button w)).page.now)
    (hran : (SocialButtons.run later (SocialButtons.handleSocialButtonClick button w)).noTimerDue) :
    (SocialButtons.run later
      (SocialButtons.handleSocialButtonClick button w)).self.lastClickedButton = none ∧
    SocialButtons.Event.apply .windowFocus
        (SocialButtons.run later (SocialButtons.handleSocialButtonClick button w))
      = { SocialButtons.run later (SocialButtons.handleSocialButtonClick button w) with
          page := { (SocialButtons.run later
            (SocialButtons.handleSocialButtonClick button w)).page with hasFocus := true } } := by
  have hp := SocialButtons.sb_run_pending w.page.now later _ hlater
    (SocialButtons.sb_click_pending button w hdesktop)
  have hnone : (SocialButtons.run later
      (SocialButtons.handleSocialButtonClick button w)).self.lastClickedButton = none := by
    cases hl : (SocialButtons.run later
      (SocialButtons.handleSocialButtonClick button w)).self.lastClickedButton with
    | none => rfl
    | some b =>
      obtain ⟨t, ht, _, hdue⟩ := hp b hl
      have := hran t ht
      omega
  refine ⟨hnone, ?_⟩
  simp [Event.apply, SocialButtons.windowFocusHandler, hnone]

/-- Witness for C10: link 1 is clicked at 0 ms and again at 4000 ms on the
desktop page and every timer runs when it is due; at 9001 ms the remembered
button is gone and a window `focus` event queues nothing. -/
theorem sb_pending_focus_return_expires_witness :
    SocialButtons.clickedEarlier.page.now = 4000 ∧
    (SocialButtons.run SocialButtons.secondClickTimeline
      (SocialButtons.handleSocialButtonClick 1 SocialButtons.clickedEarlier)).page.now = 9001 ∧
    (SocialButtons.run SocialButtons.secondClickTimeline
      (SocialButtons.handleSocialButtonClick 1 SocialButtons.clickedEarlier)
      ).self.lastClickedButton = none ∧
    (SocialButtons.Event.apply .windowFocus
      (SocialButtons.run SocialButtons.secondClickTimeline
        (SocialButtons.handleSocialButtonClick 1 SocialButtons.clickedEarlier))).page.rafQueue
      = [] :=
  ⟨by decide, by decide,
   (sb_pending_focus_return_expires SocialButtons.clickedEarlier 1
      SocialButtons.secondClickTimeline (by decide) (by decide) (by decide) (by decide)).1,
   (congrArg (fun w => w.page.rafQueue)
      (sb_pending_focus_return_expires SocialButtons.clickedEarlier 1
        SocialButtons.secondClickTimeline (by decide) (by decide) (by decide) (by decide)).2).trans
      (by decide)⟩

/-- The effect trace of the witness timeline, after construction: both focus
attempts run and each is followed by its blur. -/
theorem sb_full_timeline_trace :
    (SocialButtons.run SocialButtons.fullTimeline
      (SocialButtons.handleSocialButtonClick 1
        (SocialButtons.construct SocialButtons.desktopPage))).trace
      = (SocialButtons.construct SocialButtons.desktopPage).trace ++
        [.requestAnimationFrame (.blurClicked 1), .requestAnimationFrame (.scheduleAttempts 1),
         .addEventListener ⟨.window, "focus", .windowFocusHandler⟩,
         .setTimeout (.clearLastClicked 1) 5000,
         .blur 1, .setTimeout (.firstAttempt 1) 50, .setTimeout (.secondAttempt 1) 200,
         .focus 1, .setTimeout (.blurIfActive 1) 100, .blur 1,
         .focus 1, .setTimeout (.blurIfActive 1) 100, .blur 1] := by
  decide

end SocialButtonsFacts

/-! ## Toast, clipboard, contact item and further coordinator theorems -/

section ToastFacts
open Toast

@[simp] theorem Toast.toast_perform_self (w : World) (eff : Effect) :
    (w.perform eff).self = w.self := rfl

@[simp] theorem Toast.toast_perform_page (w : World) (eff : Effect) :
    (w.perform eff).page = eff.apply w.page := rfl

@[simp] theorem Toast.toast_perform_trace (w : World) (eff : Effect) :
    (w.perform eff).trace = w.trace ++ [eff] := rfl

theorem Toast.toast_show_spec (w : World) (el : Elem) (message : String) (duration : Option Nat)
    (hel : w.self.toastElement = some el) (ht : w.tracked) :
    (Toast.show message duration w).self.toastElement = some el ∧
    (Toast.show message duration w).self.timeoutId = some (w.page.lastTimerId + 1) ∧
    (Toast.show message duration w).page.timers
      = [⟨w.page.lastTimerId + 1, w.page.now + duration.getD 2500⟩] ∧
    (Toast.show message duration w).page.lastTimerId = w.page.lastTimerId + 1 ∧
    (Toast.show message duration w).page.now = w.page.now ∧
    (Toast.show message duration w).page.textContent el = message ∧
    "toast--show" ∈ (Toast.show message duration w).page.classList el := by
  have hclear : ∀ id, w.self.timeoutId = some id → w.page.timers.filter (·.id ≠ id) = [] := by
    intro id hid
    rw [List.filter_eq_nil_iff]
    intro t htm
    have := (ht t htm).1
    rw [hid] at this
    simp [Option.some.inj this]
  have hnone : w.self.timeoutId = none ∨ w.self.timeoutId = some 0 → w.page.timers = [] := by
    intro h
    rw [List.eq_nil_iff_forall_not_mem]
    intro t htm
    have h1 := ht t htm
    rcases h with h | h
    · rw [h] at h1; exact absurd h1.1 (by simp)
    · rw [h] at h1; exact h1.2 (Option.some.inj h1.1).symm
  unfold Toast.show
  simp only [hel]
  rcases hid : w.self.timeoutId with _ | id
  · by_cases ha : "toast--show" ∈ w.page.classList el <;>
      simp [Effect.apply, hnone (Or.inl hid), ha, hel]
  · by_cases h0 : id = 0
    · subst h0
      by_cases ha : "toast--show" ∈ w.page.classList el <;>
        simp [Effect.apply, hnone (Or.inr hid), ha, hel]
    · have hc := hclear id hid
      simp only [ne_eq, decide_not] at hc
      by_cases ha : "toast--show" ∈ w.page.classList el <;>
        simp [Effect.apply, hc, ha, hel, h0]

theorem Toast.toast_show_tracked (w : World) (message : String) (duration : Option Nat)
    (ht : w.tracked) : (Toast.show message duration w).tracked := by
  rcases hel : w.self.toastElement with _ | el
  · intro t htm
    simp only [Toast.show, hel] at htm ⊢
    exact ht t htm
  · have h := Toast.toast_show_spec w el message duration hel ht
    intro t htm
    rw [h.2.2.1] at htm
    simp at htm
    rw [h.2.1, htm]
    simp

theorem Toast.toast_hide_frame (w : World) :
    (Toast.hide w).self = w.self ∧ (Toast.hide w).page.timers = w.page.timers ∧
    (Toast.hide w).page.lastTimerId = w.page.lastTimerId ∧
    (Toast.hide w).page.now = w.page.now := by
  unfold Toast.hide
  cases w.self.toastElement <;> simp [Effect.apply]

theorem Toast.toast_event_tracked (ev : Event) (w : World) (ht : w.tracked) :
    (ev.apply w).tracked := by
  match ev with
  | .show message duration => exact Toast.toast_show_tracked w message duration ht
  | .hide =>
    intro t htm
    have h := Toast.toast_hide_frame w
    simp only [Event.apply] at htm ⊢
    rw [h.2.1] at htm
    rw [h.1]
    exact ht t htm
  | .showCopySuccess text => exact Toast.toast_show_tracked w _ _ ht
  | .showError message => exact Toast.toast_show_tracked w _ _ ht
  | .elapse ms => exact ht
  | .timer index =>
    simp only [Event.apply]
    split
    · split
      · intro t htm
        have h := Toast.toast_hide_frame
          { w with page := { w.page with timers := w.page.timers.eraseIdx index } }
        rw [h.2.1] at htm
        rw [h.1]
        exact ht t (List.mem_of_mem_eraseIdx htm)
      · exact ht
    · exact ht

theorem Toast.toast_run_tracked (events : List Event) (w : World) (ht : w.tracked) :
    (Toast.run events w).tracked := by
  induction events generalizing w with
  | nil => exact ht
  | cons ev rest ih =>
    simp only [Toast.run, List.foldl_cons]
    exact ih _ (Toast.toast_event_tracked ev w ht)

theorem Toast.toast_construct_tracked (p : Page) : (Toast.construct p).tracked := by
  intro t htm
  unfold Toast.construct Toast.init at htm
  cases hp : p.toast <;> simp [hp, Effect.apply] at htm

theorem Toast.toast_show_retired (id : Nat) (w : World) (message : String)
    (duration : Option Nat) (h : w.retired id) : (Toast.show message duration w).retired id := by
  obtain ⟨h1, h2⟩ := h
  unfold Toast.show
  rcases hel : w.self.toastElement with _ | el
  · exact ⟨h1, h2⟩
  · have hf : ∀ k, ∀ t ∈ w.page.timers.filter (fun t => !decide (t.id = k)), id < t.id :=
      fun k t ht => h2 t (List.mem_of_mem_filter ht)
    rcases hid : w.self.timeoutId with _ | k
    · by_cases ha : "toast--show" ∈ w.page.classList el <;>
        simp only [World.retired] <;>
        simp [Effect.apply, ha] <;>
        refine ⟨by omega, fun t ht => ?_⟩ <;>
        rcases ht with ht | ht <;>
        first
          | exact h2 t ht
          | (subst ht; simp; omega)
    · by_cases h0 : k = 0 <;>
        by_cases ha : "toast--show" ∈ w.page.classList el <;>
        simp only [World.retired] <;>
        simp [Effect.apply, ha, h0] <;>
        refine ⟨by omega, fun t ht => ?_⟩ <;>
        rcases ht with ht | ht <;>
        first
          | exact h2 t ht
          | exact h2 t ht.1
          | (subst ht; simp; omega)

theorem Toast.toast_event_retired (id : Nat) (ev : Event) (w : World) (h : w.retired id) :
    (ev.apply w).retired id := by
  match ev with
  | .show message duration => exact Toast.toast_show_retired id w message duration h
  | .hide =>
    have hf := Toast.toast_hide_frame w
    simp only [Event.apply, World.retired]
    rw [hf.2.1, hf.2.2.1]
    exact h
  | .showCopySuccess text => exact Toast.toast_show_retired id w _ _ h
  | .showError message => exact Toast.toast_show_retired id w _ _ h
  | .elapse ms => exact h
  | .timer index =>
    simp only [Event.apply]
    split
    · split
      · have hf := Toast.toast_hide_frame
          { w with page := { w.page with timers := w.page.timers.eraseIdx index } }
        simp only [World.retired]
        rw [hf.2.1, hf.2.2.1]
        exact ⟨h.1, fun t ht => h.2 t (List.mem_of_mem_eraseIdx ht)⟩
      · exact h
    · exact h

theorem Toast.toast_run_retired (id : Nat) (events : List Event) (w : World)
    (h : w.retired id) : (Toast.run events w).retired id := by
  induction events generalizing w with
  | nil => exact h
  | cons ev rest ih =>
    simp only [Toast.run, List.foldl_cons]
    exact ih _ (Toast.toast_event_retired id ev w h)

/-- C12. On a toast whose element exists, in any state reached from
construction by `show`, `hide`, `showCopySuccess`, `showError`, elapsed time
and timers firing, `show(m1, d1)` followed at once by `show(m2, d2)` leaves
the element with text `m2` and class `toast--show`, and exactly one pending
auto-hide timer: the one set by the second call, due `d2` ms (2500 when
omitted) after the call. The timer set by the first call was the only one
pending between the calls, and whatever happens later no pending timer ever
carries its id again: it never fires. -/
theorem toast_show_last_call_wins (p : Toast.Page) (events : List Toast.Event) (el : Elem)
    (m1 m2 : String) (d1 d2 : Option Nat)
    (hel : (Toast.run events (Toast.construct p)).self.toastElement = some el) :
    (Toast.show m2 d2 (Toast.show m1 d1 (Toast.run events (Toast.construct p)))
      ).page.textContent el = m2 ∧
    "toast--show" ∈ (Toast.show m2 d2 (Toast.show m1 d1 (Toast.run events (Toast.construct p)))
      ).page.classList el ∧
    (Toast.show m2 d2 (Toast.show m1 d1 (Toast.run events (Toast.construct p)))).page.timers
      = [⟨(Toast.run events (Toast.construct p)).page.lastTimerId + 2,
          (Toast.run events (Toast.construct p)).page.now + d2.getD 2500⟩] ∧
    (Toast.show m1 d1 (Toast.run events (Toast.construct p))).page.timers
      = [⟨(Toast.run events (Toast.construct p)).page.lastTimerId + 1,
          (Toast.run events (Toast.construct p)).page.now + d1.getD 2500⟩] ∧
    ∀ later : List Toast.Event,
      ∀ t ∈ (Toast.run later (Toast.show m2 d2 (Toast.show m1 d1
          (Toast.run events (Toast.construct p))))).page.timers,
        t.id ≠ (Toast.run events (Toast.construct p)).page.lastTimerId + 1 := by
  have ht := Toast.toast_run_tracked events _ (Toast.toast_construct_tracked p)
  have h1 := Toast.toast_show_spec _ el m1 d1 hel ht
  have ht1 := Toast.toast_show_tracked _ m1 d1 ht
  have h2 := Toast.toast_show_spec _ el m2 d2 h1.1 ht1
  rw [h1.2.2.2.1, h1.2.2.2.2.1] at h2
  refine ⟨h2.2.2.2.2.2.1, h2.2.2.2.2.2.2, h2.2.2.1, h1.2.2.1, ?_⟩
  intro later t htm
  have hr : (Toast.show m2 d2 (Toast.show m1 d1 (Toast.run events (Toast.construct p)))).retired
      ((Toast.run events (Toast.construct p)).page.lastTimerId + 1) := by
    refine ⟨?_, ?_⟩
    · rw [h2.2.2.2.1]
      omega
    · intro t ht
      rw [h2.2.2.1] at ht
      simp at ht
      rw [ht]
      simp
  have := (Toast.toast_run_retired _ later _ hr).2 t htm
  omega

/-- Witness for C12: `show("x", 100)` then `show("y", 2500)` on the sample
page. Only "y" is shown and one timer is pending, due at 2500 ms; after
2500 ms it fires and the trace holds exactly one dismissal. -/
theorem toast_show_last_call_wins_witness :
    (Toast.show "y" (some 2500) (Toast.show "x" (some 100)
      (Toast.run [] (Toast.construct Toast.samplePage)))).page.textContent 9 = "y" ∧
    (Toast.show "y" (some 2500) (Toast.show "x" (some 100)
      (Toast.run [] (Toast.construct Toast.samplePage)))).page.timers = [⟨2, 2500⟩] ∧
    Toast.dismissals (Toast.run [.show "x" (some 100), .show "y" (some 2500), .elapse 100,
      .timer 1, .elapse 2400, .timer 0, .elapse 1000] (Toast.construct Toast.samplePage)).trace
      = 1 :=
  ⟨(toast_show_last_call_wins Toast.samplePage [] 9 "x" "y" (some 100) (some 2500) rfl).1,
   (toast_show_last_call_wins Toast.samplePage [] 9 "x" "y" (some 100) (some 2500) rfl).2.2.1,
   by decide⟩

theorem Js.js_dropWhile_append_last (ws : Char → Bool) (xs : List Char) (c : Char)
    (hc : ws c = false) : (xs ++ [c]).dropWhile ws = xs.dropWhile ws ++ [c] := by
  induction xs with
  | nil => simp [List.dropWhile, hc]
  | cons x rest ih =>
    by_cases hx : ws x = true
    · simp [List.dropWhile, hx, ih]
    · simp [List.dropWhile, hx]

theorem Js.js_dropWhile_head (ws : Char → Bool) (l : List Char) (c : Char) (rest : List Char)
    (h : l.dropWhile ws = c :: rest) : ws c = false := by
  induction l with
  | nil => simp at h
  | cons x tail ih =>
    by_cases hx : ws x = true
    · simp [List.dropWhile, hx] at h
      exact ih h
    · simp [List.dropWhile, hx] at h
      rw [← h.1]
      simpa using hx

theorem Js.js_trim_head (text : String) :
    (Js.trim text).toList.head? = (text.toList.dropWhile Js.isTrimChar).head? := by
  unfold Js.trim
  generalize text.toList = l
  rcases h : l.dropWhile Js.isTrimChar with _ | ⟨c, rest⟩
  · simp
  · have hc := Js.js_dropWhile_head _ _ _ _ h
    simp only [List.reverse_cons]
    rw [Js.js_dropWhile_append_last _ _ _ hc]
    simp

theorem Js.js_startsWithDigit_trim (text : String) :
    Js.startsWithDigit (Js.trim text) = true ↔
      ∃ c, (text.toList.dropWhile Js.isTrimChar).head? = some c ∧ c.isDigit = true := by
  have h := Js.js_trim_head text
  unfold Js.startsWithDigit
  generalize (Js.trim text).toList = t at h ⊢
  generalize (text.toList.dropWhile Js.isTrimChar).head? = o at h ⊢
  subst h
  rcases t with _ | ⟨c, rest⟩ <;> simp

theorem Toast.toast_show_text (w : World) (el : Elem) (message : String) (duration : Option Nat)
    (hel : w.self.toastElement = some el) :
    (Toast.show message duration w).page.textContent el = message := by
  unfold Toast.show
  simp only [hel]
  rcases hid : w.self.timeoutId with _ | id
  · by_cases ha : "toast--show" ∈ w.page.classList el <;> simp [Effect.apply, ha]
  · by_cases h0 : id = 0 <;> by_cases ha : "toast--show" ∈ w.page.classList el <;>
      simp [Effect.apply, ha, h0]

/-- C13, counterexample. The text `" 555 123 4567"` begins with a space: it
contains no `+` and does not start with a digit, yet `showCopySuccess` shows
the phone message, because the digit test is made on the trimmed text. -/
theorem toast_copy_message_leading_space :
    Js.includesPlus " 555 123 4567" = false ∧
    Js.startsWithDigit " 555 123 4567" = false ∧
    (Toast.showCopySuccess " 555 123 4567"
      (Toast.construct Toast.samplePage)).page.textContent 9 = "Copied phone number" := by
  decide

/-- C13, amended. On a toast whose element exists, `showCopySuccess(text)`
shows `Copied phone number` exactly when `text` contains `+` or its first
character after the leading white space is an ASCII digit, and shows
`Copied email` exactly when neither holds. `isPhoneNumber(text)` of the
clipboard utility is true under the same condition. -/
theorem toast_copy_message_spec (w : Toast.World) (el : Elem) (text : String)
    (hel : w.self.toastElement = some el) :
    ((Toast.showCopySuccess text w).page.textContent el = "Copied phone number" ↔
      ('+' ∈ text.toList ∨
        ∃ c, (text.toList.dropWhile Js.isTrimChar).head? = some c ∧ c.isDigit = true)) ∧
    ((Toast.showCopySuccess text w).page.textContent el = "Copied email" ↔
      ¬ ('+' ∈ text.toList ∨
        ∃ c, (text.toList.dropWhile Js.isTrimChar).head? = some c ∧ c.isDigit = true)) ∧
    (isPhoneNumber text = true ↔
      ('+' ∈ text.toList ∨
        ∃ c, (text.toList.dropWhile Js.isTrimChar).head? = some c ∧ c.isDigit = true)) := by
  have hd := Js.js_startsWithDigit_trim text
  have hp : Js.includesPlus text = true ↔ '+' ∈ text.toList := by
    simp [Js.includesPlus]
  unfold Toast.showCopySuccess isPhoneNumber
  simp only [Toast.toast_show_text _ el _ _ hel]
  rw [← hd, ← hp]
  cases Js.includesPlus text <;> cases Js.startsWithDigit (Js.trim text) <;> simp

/-- Witness for C13 (amended): the two texts of the specification scenario. -/
theorem toast_copy_message_spec_witness :
    (Toast.showCopySuccess "+1 555 123 4567"
      (Toast.construct Toast.samplePage)).page.textContent 9 = "Copied phone number" ∧
    (Toast.showCopySuccess "name@example.com"
      (Toast.construct Toast.samplePage)).page.textContent 9 = "Copied email" :=
  ⟨(toast_copy_message_spec (Toast.construct Toast.samplePage) 9 "+1 555 123 4567" rfl).1.mpr
      (Or.inl (by decide)),
   (toast_copy_message_spec (Toast.construct Toast.samplePage) 9 "name@example.com" rfl).2.1.mpr
      (by decide)⟩

end ToastFacts

section ClipboardFacts
open Clipboard

theorem Clipboard.clip_fallback_value (text : String) (platform : Platform) (w : World) :
    ∃ w', Clipboard.fallbackCopyToClipboard text platform w
      = .normal w'
          (if platform.focusThrows = true ∨ platform.selectThrows = true then false
           else match platform.execCommand with
                | some successful => successful
                | none => false) := by
  unfold Clipboard.fallbackCopyToClipboard Clipboard.fallbackTry
  cases hf : platform.focusThrows <;> cases hs : platform.selectThrows <;>
    cases he : platform.execCommand <;> simp

/-- C16. `copyToClipboard(text)` always completes normally (its promise is
fulfilled, never rejected), whatever the platform does. Its value is `true`
when the clipboard API is present, the context is secure and `writeText`
fulfils. In every other case it is the value of
`fallbackCopyToClipboard(text)`, which also always completes normally: the
boolean returned by `execCommand('copy')`, or `false` when `focus()`,
`select()` or `execCommand` threw. -/
theorem clipboard_copy_never_throws (text : String) (platform : Clipboard.Platform)
    (w : Clipboard.World) :
    (∃ w', Clipboard.copyToClipboard text platform w
      = .normal w'
          (if platform.hasClipboard = true ∧ platform.isSecureContext = true ∧
              platform.writeTextFulfils = true then true
           else if platform.focusThrows = true ∨ platform.selectThrows = true then false
           else match platform.execCommand with
                | some successful => successful
                | none => false)) ∧
    (∃ w', Clipboard.fallbackCopyToClipboard text platform w
      = .normal w'
          (if platform.focusThrows = true ∨ platform.selectThrows = true then false
           else match platform.execCommand with
                | some successful => successful
                | none => false)) := by
  refine ⟨?_, Clipboard.clip_fallback_value text platform w⟩
  unfold Clipboard.copyToClipboard Clipboard.copyTry Clipboard.fallbackCopyToClipboard
    Clipboard.fallbackTry
  cases hc : platform.hasClipboard <;> cases hx : platform.isSecureContext <;>
    cases hw : platform.writeTextFulfils <;> cases hf : platform.focusThrows <;>
    cases hs : platform.selectThrows <;> cases he : platform.execCommand <;> simp

/-- Two evaluations of `copyToClipboard`: a rejected `writeText` falls back to
`execCommand` and gives its `true`; a throwing `execCommand` gives `false`. -/
theorem clipboard_copy_examples :
    (∃ w', Clipboard.copyToClipboard "a@b.c" Clipboard.writeTextRejects Clipboard.sampleWorld
      = .normal w' true) ∧
    (∃ w', Clipboard.copyToClipboard "a@b.c" Clipboard.execCommandThrows Clipboard.sampleWorld
      = .normal w' false) :=
  ⟨⟨_, rfl⟩, ⟨_, rfl⟩⟩

/-- C17, the failing input. On a platform where `document.execCommand('copy')`
throws, `fallbackCopyToClipboard` returns `false` through its `catch` and
never reaches `removeChild`: the temporary textarea 100 stays in
`document.body`, whose children are `[1, 2, 100]` instead of `[1, 2]`, and it
keeps the focus it took from element 1. -/
theorem clipboard_fallback_leaves_textarea :
    Clipboard.sampleWorld.page.bodyChildren = [1, 2] ∧
    (Clipboard.fallbackCopyToClipboard "a@b.c" Clipboard.execCommandThrows
      Clipboard.sampleWorld).world.page.bodyChildren = [1, 2, 100] ∧
    (Clipboard.fallbackCopyToClipboard "a@b.c" Clipboard.execCommandThrows
      Clipboard.sampleWorld).world.page.activeElement = some 100 ∧
    (Clipboard.fallbackCopyToClipboard "a@b.c" Clipboard.execCommandThrows
      Clipboard.sampleWorld).world.trace
      = [.createElement 100, .appendChild 100, .focus 100, .select 100, .execCommandCopy,
         .consoleError "Fallback copy failed:"] := by
  decide

/-- When no call throws, `fallbackCopyToClipboard` removes the textarea: the
children of `document.body` are what they were. When `focus()`, `select()` or
`execCommand` throws, the textarea stays as the last child. -/
theorem Clipboard.clip_fallback_children (text : String) (platform : Platform) (w : World)
    (hfresh : w.page.nextElem ∉ w.page.bodyChildren) :
    (Clipboard.fallbackCopyToClipboard text platform w).world.page.bodyChildren
      = if platform.focusThrows = true ∨ platform.selectThrows = true ∨
            platform.execCommand = none
        then w.page.bodyChildren ++ [w.page.nextElem]
        else w.page.bodyChildren := by
  have hfil : w.page.bodyChildren.filter (fun x => !decide (x = w.page.nextElem))
      = w.page.bodyChildren := by
    rw [List.filter_eq_self]
    intro a ha
    simp only [Bool.not_eq_true', decide_eq_false_iff_not]
    intro h
    exact hfresh (h ▸ ha)
  unfold Clipboard.fallbackCopyToClipboard Clipboard.fallbackTry
  cases hf : platform.focusThrows <;> cases hs : platform.selectThrows <;>
    cases he : platform.execCommand <;>
    simp [Completion.world, World.perform, Effect.apply, hfil, List.filter_append]

end ClipboardFacts

section ContactItemFacts
open ContactItem

@[simp] theorem ContactItem.ci_perform_self (w : World) (eff : Effect) :
    (w.perform eff).self = w.self := rfl

@[simp] theorem ContactItem.ci_perform_page (w : World) (eff : Effect) :
    (w.perform eff).page = eff.apply w.page := rfl

@[simp] theorem ContactItem.ci_perform_trace (w : World) (eff : Effect) :
    (w.perform eff).trace = w.trace ++ [eff] := rfl

/-- C14, the failing input. The copy control of the sample item is activated
at 0 ms and again at 500 ms, both copies succeed, and both revert timers run.
The second copy reads the check mark as the "original" icon class, so the
timer that fires last, at 2000 ms, puts the check mark back: 1500 ms after the
last copy, with no timer pending, the icon class is `fa-solid fa-check` and
not `fa-regular fa-copy`. -/
theorem contact_double_copy_keeps_check_icon :
    ContactItem.sampleItem.page.className 24 = "fa-regular fa-copy" ∧
    (ContactItem.run ContactItem.doubleCopy ContactItem.sampleItem).page.now = 2000 ∧
    (ContactItem.run ContactItem.doubleCopy ContactItem.sampleItem).page.timers = [] ∧
    (ContactItem.run ContactItem.doubleCopy ContactItem.sampleItem).page.className 24
      = "fa-solid fa-check" ∧
    (ContactItem.run ContactItem.doubleCopy ContactItem.sampleItem).trace
      = [.classListAdd 21 "copied", .setClassName 24 "fa-solid fa-check",
         .setTimeout (.revert 24 "fa-regular fa-copy") 1500, .blur 21,
         .classListAdd 21 "copied", .setClassName 24 "fa-solid fa-check",
         .setTimeout (.revert 24 "fa-solid fa-check") 1500, .blur 21,
         .classListRemove 21 "copied", .setClassName 24 "fa-regular fa-copy",
         .classListRemove 21 "copied", .setClassName 24 "fa-solid fa-check"] := by
  decide

/-- A second way in which the confirmed state is not reverted: when the copy
control holds no icon, no timer is set at all and the class `copied` stays. -/
theorem contact_copy_without_icon_stays_copied :
    (ContactItem.run [.copyClick (some true), .elapse 1500]
      ContactItem.iconlessItem).page.timers = [] ∧
    "copied" ∈ (ContactItem.run [.copyClick (some true), .elapse 1500]
      ContactItem.iconlessItem).page.classList 21 := by
  decide

/-- One successful copy on an item with an icon, with no other copy pending,
is reverted by its timer: the class `copied` is gone and the icon has the
class it had before the copy. -/
theorem ContactItem.ci_single_copy_reverts (w : World) (b t i : Elem)
    (hb : w.self.copyButton = some b) (ht : w.self.contactText = some t)
    (htext : Js.trim (w.page.textContent t) ≠ "") (hi : w.page.icon b = some i)
    (hnone : w.page.timers = []) :
    "copied" ∉ (ContactItem.run [.copyClick (some true), .elapse 1500, .timer 0] w
      ).page.classList b ∧
    (ContactItem.run [.copyClick (some true), .elapse 1500, .timer 0] w).page.className i
      = w.page.className i := by
  by_cases hc : "copied" ∈ w.page.classList b <;> by_cases ha : w.page.activeElement = some b <;>
    simp [ContactItem.run, Event.apply, ContactItem.handleCopyClick,
      ContactItem.showCopySuccess, Callback.run, Effect.apply, hb, ht, htext, hi, hnone, hc, ha]

/-- C15, counterexample. The text element of the item holds only spaces and the
copy control 21 has focus. `handleCopyClick` returns at the guard on the empty
trimmed text, before the `try` and its `finally`: no call is made, and the
copy control still has focus when the call completes. -/
theorem contact_copy_empty_text_keeps_focus :
    ContactItem.emptyItem.self.copyButton = some 21 ∧
    ContactItem.emptyItem.page.activeElement = some 21 ∧
    (ContactItem.handleCopyClick (fun _ => some true) ContactItem.emptyItem).threw = false ∧
    (ContactItem.handleCopyClick (fun _ => some true) ContactItem.emptyItem).world.trace = [] ∧
    (ContactItem.handleCopyClick (fun _ => some true)
      ContactItem.emptyItem).world.page.activeElement = some 21 := by
  decide

/-- C15, amended. On a contact item with a copy control, `handleCopyClick`
completes without raising, whatever the text and whether the clipboard write
gives `true`, gives `false` or throws. When the text element exists and its
trimmed text is not empty, the last call made is `blur()` on the copy control,
which does not hold focus when the call completes. -/
theorem contact_copy_silent_and_blurs (w : ContactItem.World) (copied : String → Option Bool)
    (b : Elem) (hb : w.self.copyButton = some b) :
    (ContactItem.handleCopyClick copied w).threw = false ∧
    ∀ t, w.self.contactText = some t → Js.trim (w.page.textContent t) ≠ "" →
      (ContactItem.handleCopyClick copied w).world.trace.getLast? = some (.blur b) ∧
      (ContactItem.handleCopyClick copied w).world.page.activeElement ≠ some b := by
  unfold ContactItem.handleCopyClick
  rcases ht : w.self.contactText with _ | t
  · simp
  · by_cases htext : Js.trim (w.page.textContent t) = ""
    · simp [htext]
    · simp only [htext, if_false]
      rcases hcopied : copied (Js.trim (w.page.textContent t)) with _ | _ | _
      · by_cases ha : w.page.activeElement = some b <;> simp [hb, Effect.apply, ha]
      · by_cases ha : w.page.activeElement = some b <;> simp [hb, Effect.apply, ha]
      · unfold ContactItem.showCopySuccess
        simp only [hb]
        rcases hi : w.page.icon b with _ | i <;>
          by_cases hc : "copied" ∈ w.page.classList b <;>
          by_cases ha : w.page.activeElement = some b <;>
          simp [hb, Effect.apply, ha, hc, hi]

/-- Witness for C15 (amended): a successful copy on the sample item while its
copy control has focus. -/
theorem contact_copy_silent_and_blurs_witness :
    (ContactItem.handleCopyClick (fun _ => some true)
      (ContactItem.run [.userFocus (some 21)] ContactItem.sampleItem)).threw = false ∧
    (ContactItem.handleCopyClick (fun _ => some true)
      (ContactItem.run [.userFocus (some 21)] ContactItem.sampleItem)).world.page.activeElement
      ≠ some 21 :=
  ⟨(contact_copy_silent_and_blurs (ContactItem.run [.userFocus (some 21)] ContactItem.sampleItem)
      (fun _ => some true) 21 rfl).1,
   ((contact_copy_silent_and_blurs (ContactItem.run [.userFocus (some 21)] ContactItem.sampleItem)
      (fun _ => some true) 21 rfl).2 23 rfl (by decide)).2⟩

end ContactItemFacts

section SocialButtonsMoreFacts
open SocialButtons

/-- C11, the failing input. Link 1 is clicked at 0 ms and again at 4000 ms on
the desktop page. At 5000 ms the expiry timer of the first click finds
`lastClickedButton === button` and clears the reference, 1000 ms after the
most recent click. At 6000 ms, 2000 ms after that click and with `isDesktop`
true, a window `focus` event finds no remembered button: it queues no
callback and makes no call, so focus is not restored. -/
theorem sb_second_click_forgotten_early :
    SocialButtons.clickedEarlier.page.now = 4000 ∧
    (SocialButtons.handleSocialButtonClick 1
      SocialButtons.clickedEarlier).self.lastClickedButton = some 1 ∧
    (SocialButtons.run SocialButtons.awayAfterSecondClick
      (SocialButtons.handleSocialButtonClick 1 SocialButtons.clickedEarlier)).page.now = 6000 ∧
    (SocialButtons.run SocialButtons.awayAfterSecondClick
      (SocialButtons.handleSocialButtonClick 1 SocialButtons.clickedEarlier)).self.isDesktop
      = true ∧
    (SocialButtons.run SocialButtons.awayAfterSecondClick
      (SocialButtons.handleSocialButtonClick 1
        SocialButtons.clickedEarlier)).self.lastClickedButton = none ∧
    (SocialButtons.Event.apply .windowFocus
      (SocialButtons.run SocialButtons.awayAfterSecondClick
        (SocialButtons.handleSocialButtonClick 1 SocialButtons.clickedEarlier))).page.hasFocus
      = true ∧
    (SocialButtons.Event.apply .windowFocus
      (SocialButtons.run SocialButtons.awayAfterSecondClick
        (SocialButtons.handleSocialButtonClick 1 SocialButtons.clickedEarlier))).page.rafQueue
      = (SocialButtons.run SocialButtons.awayAfterSecondClick
          (SocialButtons.handleSocialButtonClick 1 SocialButtons.clickedEarlier)).page.rafQueue ∧
    (SocialButtons.Event.apply .windowFocus
      (SocialButtons.run SocialButtons.awayAfterSecondClick
        (SocialButtons.handleSocialButtonClick 1 SocialButtons.clickedEarlier))).trace
      = (SocialButtons.run SocialButtons.awayAfterSecondClick
          (SocialButtons.handleSocialButtonClick 1 SocialButtons.clickedEarlier)).trace := by
  decide

/-- C19, the failing input. Link 1 is clicked on the desktop page in a window
that keeps input focus, and nothing else moves focus. The attempt at 50 ms
focuses the link; its own timer blurs the link at 150 ms; the attempt at
200 ms then finds `document.activeElement !== clickedButton` and calls
`focus()` a second time, although the first attempt worked. -/
theorem sb_second_attempt_refocuses :
    (SocialButtons.run (SocialButtons.bothAttempts.take 3)
      (SocialButtons.handleSocialButtonClick 1
        (SocialButtons.construct SocialButtons.desktopPage))).page.activeElement = some 1 ∧
    SocialButtons.focusCalls (SocialButtons.run (SocialButtons.bothAttempts.take 3)
      (SocialButtons.handleSocialButtonClick 1
        (SocialButtons.construct SocialButtons.desktopPage))).trace = 1 ∧
    (SocialButtons.run SocialButtons.bothAttempts
      (SocialButtons.handleSocialButtonClick 1
        (SocialButtons.construct SocialButtons.desktopPage))).page.now = 200 ∧
    (SocialButtons.run SocialButtons.bothAttempts
      (SocialButtons.handleSocialButtonClick 1
        (SocialButtons.construct SocialButtons.desktopPage))).page.hasFocus = true ∧
    SocialButtons.focusCalls (SocialButtons.run SocialButtons.bothAttempts
      (SocialButtons.handleSocialButtonClick 1
        (SocialButtons.construct SocialButtons.desktopPage))).trace = 2 ∧
    (SocialButtons.run SocialButtons.bothAttempts
      (SocialButtons.handleSocialButtonClick 1
        (SocialButtons.construct SocialButtons.desktopPage))).trace
      = (SocialButtons.construct SocialButtons.desktopPage).trace ++
        [.requestAnimationFrame (.blurClicked 1), .requestAnimationFrame (.scheduleAttempts 1),
         .addEventListener ⟨.window, "focus", .windowFocusHandler⟩,
         .setTimeout (.clearLastClicked 1) 5000,
         .blur 1, .setTimeout (.firstAttempt 1) 50, .setTimeout (.secondAttempt 1) 200,
         .focus 1, .setTimeout (.blurIfActive 1) 100, .blur 1,
         .focus 1, .setTimeout (.blurIfActive 1) 100] := by
  decide

/-- C18, counterexample. Link 1 is clicked on the desktop page and takes focus,
and `destroy()` runs at once. The two animation-frame callbacks and the expiry
timer of the click are still pending after `destroy()`, and the next frame
calls `blur()` on the link, which loses focus. -/
theorem sb_destroy_leaves_callbacks :
    (SocialButtons.destroy (SocialButtons.run [.click 1, .userFocus (some 1)]
      (SocialButtons.construct SocialButtons.desktopPage))).page.rafQueue
      = [.blurClicked 1, .scheduleAttempts 1] ∧
    (SocialButtons.destroy (SocialButtons.run [.click 1, .userFocus (some 1)]
      (SocialButtons.construct SocialButtons.desktopPage))).page.timers
      = [⟨.clearLastClicked 1, 5000⟩] ∧
    (SocialButtons.destroy (SocialButtons.run [.click 1, .userFocus (some 1)]
      (SocialButtons.construct SocialButtons.desktopPage))).page.listeners = [] ∧
    (SocialButtons.destroy (SocialButtons.run [.click 1, .userFocus (some 1)]
      (SocialButtons.construct SocialButtons.desktopPage))).page.activeElement = some 1 ∧
    (SocialButtons.run [.animationFrame]
      (SocialButtons.destroy (SocialButtons.run [.click 1, .userFocus (some 1)]
        (SocialButtons.construct SocialButtons.desktopPage)))).page.activeElement = none ∧
    SocialButtons.blurCalls (SocialButtons.run [.animationFrame]
      (SocialButtons.destroy (SocialButtons.run [.click 1, .userFocus (some 1)]
        (SocialButtons.construct SocialButtons.desktopPage)))).trace
      = SocialButtons.blurCalls (SocialButtons.destroy (SocialButtons.run
          [.click 1, .userFocus (some 1)]
          (SocialButtons.construct SocialButtons.desktopPage))).trace + 1 := by
  decide

theorem SocialButtons.sb_tracked_congr (w w' : World) (h : w'.registry = w.registry)
    (ht : w.tracked) : w'.tracked := by
  simp only [World.registry, Prod.mk.injEq] at h
  obtain ⟨h1, h2, h3, h4, h5⟩ := h
  intro l hl
  rw [h1] at hl
  have := ht l hl
  simpa [Fields.accountsFor, h2, h3, h4, h5] using this

theorem SocialButtons.sb_apply_frame (eff : Effect) (p : Page)
    (h : ∀ l, eff ≠ .addEventListener l ∧ eff ≠ .removeEventListener l) :
    (eff.apply p).listeners = p.listeners ∧ (eff.apply p).hasFocus = p.hasFocus ∧
    (eff.apply p).now = p.now := by
  cases eff with
  | blur e => by_cases ha : p.activeElement = some e <;> simp [Effect.apply, ha]
  | focus e => simp [Effect.apply]
  | addEventListener l => exact absurd rfl (h l).1
  | removeEventListener l => exact absurd rfl (h l).2
  | requestAnimationFrame cb => simp [Effect.apply]
  | setTimeout cb delay => simp [Effect.apply]

theorem SocialButtons.sb_callback_registry (cb : Callback) (w : World) :
    (cb.run w).registry = w.registry := by
  cases cb <;> simp only [Callback.run, World.registry] <;>
    (try split) <;> (try split) <;>
    simp [SocialButtons.sb_apply_frame]

theorem SocialButtons.sb_foldl_registry (q : List Callback) (w : World) :
    (q.foldl (fun acc cb => cb.run acc) w).registry = w.registry := by
  induction q generalizing w with
  | nil => rfl
  | cons cb rest ih =>
    simp only [List.foldl_cons]
    rw [ih, SocialButtons.sb_callback_registry]

theorem SocialButtons.sb_focusCalls_snoc (trace : List Effect) (eff : Effect) :
    SocialButtons.focusCalls (trace ++ [eff])
      = SocialButtons.focusCalls trace +
        (match eff with
         | .focus _ => 1
         | _ => 0) := by
  cases eff <;> simp [SocialButtons.focusCalls, List.countP_append]

theorem SocialButtons.sb_removeAll (hs : List (Elem × Handler)) (w : World) :
    (hs.foldl (fun acc entry =>
        acc.perform (.removeEventListener ⟨.element entry.1, "click", entry.2⟩)) w).self
      = w.self ∧
    (∀ l, l ∈ (hs.foldl (fun acc entry =>
        acc.perform (.removeEventListener ⟨.element entry.1, "click", entry.2⟩)) w).page.listeners
      ↔ (l ∈ w.page.listeners ∧
          ∀ entry ∈ hs, l ≠ (⟨.element entry.1, "click", entry.2⟩ : Listener))) ∧
    SocialButtons.focusCalls (hs.foldl (fun acc entry =>
        acc.perform (.removeEventListener ⟨.element entry.1, "click", entry.2⟩)) w).trace
      = SocialButtons.focusCalls w.trace := by
  induction hs generalizing w with
  | nil => simp
  | cons entry rest ih =>
    simp only [List.foldl_cons]
    obtain ⟨h1, h2, h3⟩ := ih (w.perform (.removeEventListener ⟨.element entry.1, "click", entry.2⟩))
    refine ⟨h1, ?_, ?_⟩
    · intro l
      rw [h2 l]
      simp only [SocialButtons.sb_perform_page, Effect.apply, List.mem_filter, List.mem_cons,
        forall_eq_or_imp, decide_eq_true_eq]
      tauto
    · rw [h3]
      simp [SocialButtons.sb_focusCalls_snoc]

theorem SocialButtons.sb_destroy_fields (w : World) :
    (SocialButtons.destroy w).self.isDesktop = false ∧
    (SocialButtons.destroy w).self.lastClickedButton = none ∧
    (SocialButtons.destroy w).self.windowFocusHandler = none ∧
    (SocialButtons.destroy w).self.desktopMediaQuery = false ∧
    (SocialButtons.destroy w).self.handleDesktopMediaChange = none ∧
    (SocialButtons.destroy w).self.socialButtonHandlers = [] := by
  unfold SocialButtons.destroy
  rcases hq : w.self.desktopMediaQuery with _ | _ <;>
    rcases hh : w.self.handleDesktopMediaChange with _ | h <;>
    rcases hw : w.self.windowFocusHandler with _ | h' <;>
    simp [(SocialButtons.sb_removeAll _ _).1, hw]

theorem SocialButtons.sb_destroy_focusCalls (w : World) :
    SocialButtons.focusCalls (SocialButtons.destroy w).trace
      = SocialButtons.focusCalls w.trace := by
  unfold SocialButtons.destroy
  rcases hq : w.self.desktopMediaQuery with _ | _ <;>
    rcases hh : w.self.handleDesktopMediaChange with _ | h <;>
    rcases hw : w.self.windowFocusHandler with _ | h' <;>
    simp [(SocialButtons.sb_removeAll _ _).1, (SocialButtons.sb_removeAll _ _).2.2, hw,
      SocialButtons.sb_focusCalls_snoc]

theorem SocialButtons.sb_destroy_listeners (w : World) :
    ∀ l ∈ (SocialButtons.destroy w).page.listeners,
      l ∈ w.page.listeners ∧
      (w.self.desktopMediaQuery = true → ∀ h, w.self.handleDesktopMediaChange = some h →
        l ≠ ⟨.desktopMediaQuery, "change", h⟩) ∧
      (∀ entry ∈ w.self.socialButtonHandlers,
        l ≠ (⟨.element entry.1, "click", entry.2⟩ : Listener)) ∧
      (∀ h, w.self.windowFocusHandler = some h → l ≠ ⟨.window, "focus", h⟩) := by
  intro l
  unfold SocialButtons.destroy
  rcases hq : w.self.desktopMediaQuery with _ | _ <;>
    rcases hh : w.self.handleDesktopMediaChange with _ | h <;>
    rcases hw : w.self.windowFocusHandler with _ | h' <;>
    simp [(SocialButtons.sb_removeAll _ _).1, (SocialButtons.sb_removeAll _ _).2.1, hw,
      Effect.apply] <;>
    tauto

theorem SocialButtons.sb_removeAll_queues (hs : List (Elem × Handler)) (w : World) :
    (hs.foldl (fun acc entry =>
        acc.perform (.removeEventListener ⟨.element entry.1, "click", entry.2⟩)) w).page.timers
      = w.page.timers ∧
    (hs.foldl (fun acc entry =>
        acc.perform (.removeEventListener ⟨.element entry.1, "click", entry.2⟩)) w).page.rafQueue
      = w.page.rafQueue := by
  induction hs generalizing w with
  | nil => exact ⟨rfl, rfl⟩
  | cons entry rest ih =>
    simp only [List.foldl_cons]
    obtain ⟨h1, h2⟩ := ih (w.perform (.removeEventListener ⟨.element entry.1, "click", entry.2⟩))
    exact ⟨h1, h2⟩

theorem SocialButtons.sb_destroy_queues (w : World) :
    (SocialButtons.destroy w).page.timers = w.page.timers ∧
    (SocialButtons.destroy w).page.rafQueue = w.page.rafQueue := by
  unfold SocialButtons.destroy
  rcases hq : w.self.desktopMediaQuery with _ | _ <;>
    rcases hh : w.self.handleDesktopMediaChange with _ | h <;>
    rcases hw : w.self.windowFocusHandler with _ | h' <;>
    simp [(SocialButtons.sb_removeAll _ _).1, (SocialButtons.sb_removeAll_queues _ _).1,
      (SocialButtons.sb_removeAll_queues _ _).2, hw, Effect.apply]

theorem SocialButtons.sb_destroy_torndown (w : World) (ht : w.tracked) :
    (SocialButtons.destroy w).torndown := by
  have hf := SocialButtons.sb_destroy_fields w
  refine ⟨hf.1, hf.2.1, ?_⟩
  intro l hl
  obtain ⟨hin, hmedia, hclick, hwin⟩ := SocialButtons.sb_destroy_listeners w l hl
  rcases ht l hin with h | ⟨rfl, hq, hh⟩ | ⟨rfl, hw⟩ | ⟨e, rfl, he⟩
  · exact h
  · exact absurd rfl (hmedia hq _ hh)
  · exact absurd rfl (hwin _ hw)
  · exact absurd rfl (hclick _ he)

theorem SocialButtons.sb_torndown_tracked (w : World) (h : w.torndown) : w.tracked :=
  fun l hl => Or.inl (h.2.2 l hl)

theorem SocialButtons.sb_click_tracked (button : Elem) (w : World) (ht : w.tracked) :
    (SocialButtons.handleSocialButtonClick button w).tracked := by
  unfold SocialButtons.handleSocialButtonClick SocialButtons.setupWindowFocusHandler
  cases hd : w.self.isDesktop with
  | false => simpa using ht
  | true =>
    rcases hw : w.self.windowFocusHandler with _ | h
    · intro l hl
      by_cases hm : (⟨.window, "focus", .windowFocusHandler⟩ : Listener) ∈ w.page.listeners
      · simp [Effect.apply, hw, hm] at hl ⊢
        rcases ht l hl with h | h | h | h
        · exact Or.inl h
        · exact Or.inr (Or.inl (by simpa using h))
        · exact Or.inr (Or.inr (Or.inl ⟨h.1, rfl⟩))
        · exact Or.inr (Or.inr (Or.inr (by simpa using h)))
      · simp [Effect.apply, hw, hm] at hl ⊢
        rcases hl with hl | hl
        · rcases ht l hl with h | h | h | h
          · exact Or.inl h
          · exact Or.inr (Or.inl (by simpa using h))
          · exact Or.inr (Or.inr (Or.inl ⟨h.1, rfl⟩))
          · exact Or.inr (Or.inr (Or.inr (by simpa using h)))
        · exact Or.inr (Or.inr (Or.inl ⟨hl, rfl⟩))
    · refine SocialButtons.sb_tracked_congr w _ ?_ ht
      simp [World.registry, Effect.apply, hw]

theorem SocialButtons.sb_event_tracked (ev : Event) (w : World) (ht : w.tracked) :
    (ev.apply w).tracked := by
  cases ev with
  | click b => exact SocialButtons.sb_click_tracked b w ht
  | animationFrame =>
    refine SocialButtons.sb_tracked_congr w _ ?_ ht
    simp only [Event.apply]
    rw [SocialButtons.sb_foldl_registry]
    rfl
  | elapse ms => exact SocialButtons.sb_tracked_congr w _ rfl ht
  | timer index =>
    refine SocialButtons.sb_tracked_congr w _ ?_ ht
    simp only [Event.apply]
    split
    · split
      · rw [SocialButtons.sb_callback_registry]
        rfl
      · rfl
    · rfl
  | windowFocus =>
    refine SocialButtons.sb_tracked_congr w _ ?_ ht
    simp only [Event.apply, SocialButtons.windowFocusHandler]
    split
    · split
      · simp [World.registry, Effect.apply]
      · rfl
    · rfl
  | windowBlur => exact SocialButtons.sb_tracked_congr w _ rfl ht
  | mediaChange isMatch =>
    refine SocialButtons.sb_tracked_congr w _ ?_ ht
    simp only [Event.apply]
    split <;> rfl
  | userFocus target => exact SocialButtons.sb_tracked_congr w _ rfl ht
  | destroy =>
    exact SocialButtons.sb_torndown_tracked _ (SocialButtons.sb_destroy_torndown w ht)

theorem SocialButtons.sb_run_tracked (events : List Event) (w : World) (ht : w.tracked) :
    (SocialButtons.run events w).tracked := by
  induction events generalizing w with
  | nil => exact ht
  | cons ev rest ih =>
    simp only [SocialButtons.run, List.foldl_cons]
    exact ih _ (SocialButtons.sb_event_tracked ev w ht)

theorem SocialButtons.sb_initButtons_tracked (els : List SocialElement) (w : World)
    (ht : w.tracked) :
    (els.foldl
      (fun acc button =>
        let originalHref := button.href
        if (originalHref.isSome ∧ originalHref ≠ some "") ∧ button.tagName = "A" then
          let handler := SocialButtons.Handler.socialButtonClick button.elem
          let acc := acc.perform (.addEventListener ⟨.element button.elem, "click", handler⟩)
          let acc := { acc with self := { acc.self with
            socialButtonHandlers := acc.self.socialButtonHandlers ++ [(button.elem, handler)] } }
          { acc with self := { acc.self with
            socialButtons := acc.self.socialButtons ++ [button.elem] } }
        else acc)
      w).tracked := by
  induction els generalizing w with
  | nil => exact ht
  | cons el rest ih =>
    simp only [List.foldl_cons]
    apply ih
    split
    · intro l hl
      have hold : ∀ l ∈ w.page.listeners, Fields.accountsFor
          { w.self with
            socialButtonHandlers := w.self.socialButtonHandlers ++
              [(el.elem, Handler.socialButtonClick el.elem)],
            socialButtons := w.self.socialButtons ++ [el.elem] } l := by
        intro l hl
        rcases ht l hl with h | h | h | ⟨e, h1, h2⟩
        · exact Or.inl h
        · exact Or.inr (Or.inl h)
        · exact Or.inr (Or.inr (Or.inl h))
        · exact Or.inr (Or.inr (Or.inr ⟨e, h1, List.mem_append_left _ h2⟩))
      by_cases hm : (⟨.element el.elem, "click", .socialButtonClick el.elem⟩ : Listener)
          ∈ w.page.listeners
      · simp only [SocialButtons.sb_perform_page, SocialButtons.sb_perform_self, Effect.apply, hm,
          if_true] at hl ⊢
        exact hold l hl
      · simp only [SocialButtons.sb_perform_page, SocialButtons.sb_perform_self, Effect.apply, hm,
          if_false, List.mem_append, List.mem_singleton] at hl ⊢
        rcases hl with hl | hl
        · exact hold l hl
        · exact Or.inr (Or.inr (Or.inr ⟨el.elem, hl, by simp⟩))
    · exact ht

theorem SocialButtons.sb_construct_tracked (p : Page)
    (hforeign : ∀ l ∈ p.listeners, l.handler.isForeign = true) :
    (SocialButtons.construct p).tracked := by
  unfold SocialButtons.construct
  refine SocialButtons.sb_tracked_congr _ _ rfl ?_
  unfold SocialButtons.initializeSocialButtons
  have hsetup : (SocialButtons.setupDesktopDetection
      { self := SocialButtons.Fields.initial, page := p, trace := [] }).tracked := by
    unfold SocialButtons.setupDesktopDetection
    rcases hm : p.matchMedia with _ | m
    · exact fun l hl => Or.inl (hforeign l hl)
    · intro l hl
      by_cases hin : (⟨.desktopMediaQuery, "change", .handleDesktopMediaChange⟩ : Listener)
          ∈ p.listeners
      · simp [Effect.apply, hin] at hl
        exact Or.inl (hforeign l hl)
      · simp [Effect.apply, hin] at hl
        rcases hl with hl | hl
        · exact Or.inl (hforeign l hl)
        · exact Or.inr (Or.inl ⟨hl, rfl, rfl⟩)
  exact SocialButtons.sb_initButtons_tracked _ _ hsetup

theorem SocialButtons.sb_callback_torndown (cb : Callback) (w : World)
    (hd : w.self.isDesktop = false) (hl : w.self.lastClickedButton = none) :
    (cb.run w).self = w.self ∧ (cb.run w).page.listeners = w.page.listeners ∧
    SocialButtons.focusCalls (cb.run w).trace = SocialButtons.focusCalls w.trace := by
  cases cb <;> simp only [Callback.run, hd, hl] <;>
    (try split) <;> (try split) <;>
    simp [SocialButtons.sb_apply_frame, SocialButtons.focusCalls, List.countP_append,
      List.countP_cons] at *

theorem SocialButtons.sb_foldl_torndown (q : List Callback) (w : World)
    (hd : w.self.isDesktop = false) (hl : w.self.lastClickedButton = none) :
    (q.foldl (fun acc cb => cb.run acc) w).self = w.self ∧
    (q.foldl (fun acc cb => cb.run acc) w).page.listeners = w.page.listeners ∧
    SocialButtons.focusCalls (q.foldl (fun acc cb => cb.run acc) w).trace
      = SocialButtons.focusCalls w.trace := by
  induction q generalizing w with
  | nil => exact ⟨rfl, rfl, rfl⟩
  | cons cb rest ih =>
    simp only [List.foldl_cons]
    obtain ⟨h1, h2, h3⟩ := SocialButtons.sb_callback_torndown cb w hd hl
    obtain ⟨i1, i2, i3⟩ := ih (cb.run w) (by rw [h1]; exact hd) (by rw [h1]; exact hl)
    exact ⟨i1.trans h1, i2.trans h2, i3.trans h3⟩

theorem SocialButtons.sb_event_torndown (ev : Event) (w : World) (h : w.torndown) :
    (ev.apply w).torndown ∧
    SocialButtons.focusCalls (ev.apply w).trace = SocialButtons.focusCalls w.trace := by
  obtain ⟨hd, hl, hf⟩ := h
  have hwin : (⟨.window, "focus", .windowFocusHandler⟩ : Listener) ∉ w.page.listeners :=
    fun hin => by simpa [Handler.isForeign] using hf _ hin
  have hmedia : (⟨.desktopMediaQuery, "change", .handleDesktopMediaChange⟩ : Listener)
      ∉ w.page.listeners :=
    fun hin => by simpa [Handler.isForeign] using hf _ hin
  cases ev with
  | click b =>
    simp only [Event.apply, SocialButtons.handleSocialButtonClick, hd]
    exact ⟨⟨hd, hl, hf⟩, rfl⟩
  | animationFrame =>
    simp only [Event.apply]
    obtain ⟨h1, h2, h3⟩ := SocialButtons.sb_foldl_torndown w.page.rafQueue
      { w with page := { w.page with rafQueue := [] } } hd hl
    refine ⟨⟨by rw [h1]; exact hd, by rw [h1]; exact hl, ?_⟩, h3⟩
    rw [h2]
    exact hf
  | elapse ms => exact ⟨⟨hd, hl, hf⟩, rfl⟩
  | timer index =>
    simp only [Event.apply]
    split
    · split
      · rename_i t _ _
        obtain ⟨h1, h2, h3⟩ := SocialButtons.sb_callback_torndown t.callback
          { w with page := { w.page with timers := w.page.timers.eraseIdx index } } hd hl
        refine ⟨⟨by rw [h1]; exact hd, by rw [h1]; exact hl, ?_⟩, h3⟩
        rw [h2]
        exact hf
      · exact ⟨⟨hd, hl, hf⟩, rfl⟩
    · exact ⟨⟨hd, hl, hf⟩, rfl⟩
  | windowFocus =>
    simp only [Event.apply, hwin, if_false]
    exact ⟨⟨hd, hl, hf⟩, trivial⟩
  | windowBlur => exact ⟨⟨hd, hl, hf⟩, rfl⟩
  | mediaChange isMatch =>
    simp only [Event.apply, hmedia, if_false]
    exact ⟨⟨hd, hl, hf⟩, trivial⟩
  | userFocus target => exact ⟨⟨hd, hl, hf⟩, rfl⟩
  | destroy =>
    exact ⟨SocialButtons.sb_destroy_torndown w (SocialButtons.sb_torndown_tracked w ⟨hd, hl, hf⟩),
      SocialButtons.sb_destroy_focusCalls w⟩

theorem SocialButtons.sb_run_torndown (events : List Event) (w : World) (h : w.torndown) :
    (SocialButtons.run events w).torndown ∧
    SocialButtons.focusCalls (SocialButtons.run events w).trace
      = SocialButtons.focusCalls w.trace := by
  induction events generalizing w with
  | nil => exact ⟨h, rfl⟩
  | cons ev rest ih =>
    simp only [SocialButtons.run, List.foldl_cons]
    obtain ⟨h1, h2⟩ := SocialButtons.sb_event_torndown ev w h
    obtain ⟨i1, i2⟩ := ih (ev.apply w) h1
    exact ⟨i1, i2.trans h2⟩

/-- C18, amended. Take a page whose listeners all belong to other scripts,
construct the coordinator, and let any events happen before `destroy()`:
clicks, animation frames, elapsed time, timers, window focus and blur, media
changes, focus moves. After `destroy()` no listener registered by the
coordinator remains, `isDesktop` is false and no button is remembered; and
whatever events follow, no `focus()` is ever called again. Pending timers and
animation-frame callbacks are not cancelled. -/
theorem sb_destroy_detaches_and_silences (p : SocialButtons.Page)
    (before later : List SocialButtons.Event)
    (hforeign : ∀ l ∈ p.listeners, l.handler.isForeign = true) :
    (∀ l ∈ (SocialButtons.destroy
        (SocialButtons.run before (SocialButtons.construct p))).page.listeners,
      l.handler.isForeign = true) ∧
    (SocialButtons.destroy
      (SocialButtons.run before (SocialButtons.construct p))).self.isDesktop = false ∧
    (SocialButtons.destroy
      (SocialButtons.run before (SocialButtons.construct p))).self.lastClickedButton = none ∧
    (SocialButtons.destroy
      (SocialButtons.run before (SocialButtons.construct p))).page.timers
      = (SocialButtons.run before (SocialButtons.construct p)).page.timers ∧
    (SocialButtons.destroy
      (SocialButtons.run before (SocialButtons.construct p))).page.rafQueue
      = (SocialButtons.run before (SocialButtons.construct p)).page.rafQueue ∧
    SocialButtons.focusCalls (SocialButtons.run later (SocialButtons.destroy
      (SocialButtons.run before (SocialButtons.construct p)))).trace
      = SocialButtons.focusCalls (SocialButtons.destroy
          (SocialButtons.run before (SocialButtons.construct p))).trace := by
  have ht := SocialButtons.sb_run_tracked before _ (SocialButtons.sb_construct_tracked p hforeign)
  have hd := SocialButtons.sb_destroy_torndown _ ht
  exact ⟨hd.2.2, hd.1, hd.2.1, (SocialButtons.sb_destroy_queues _).1,
    (SocialButtons.sb_destroy_queues _).2, (SocialButtons.sb_run_torndown later _ hd).2⟩

/-- Witness for C18 (amended): the counterexample run, followed after
`destroy()` by the frame, both attempt timers and a window focus event. -/
theorem sb_destroy_detaches_and_silences_witness :
    (SocialButtons.destroy (SocialButtons.run [.click 1, .userFocus (some 1)]
      (SocialButtons.construct SocialButtons.pageWithForeignListener))).self.lastClickedButton = none ∧
    SocialButtons.focusCalls (SocialButtons.run
      [.animationFrame, .elapse 50, .timer 1, .elapse 150, .timer 1, .windowFocus,
       .animationFrame]
      (SocialButtons.destroy (SocialButtons.run [.click 1, .userFocus (some 1)]
        (SocialButtons.construct SocialButtons.pageWithForeignListener)))).trace = 0 :=
  ⟨(sb_destroy_detaches_and_silences SocialButtons.pageWithForeignListener [.click 1, .userFocus (some 1)]
      [] (by decide)).2.2.1,
   ((sb_destroy_detaches_and_silences SocialButtons.pageWithForeignListener [.click 1, .userFocus (some 1)]
      [.animationFrame, .elapse 50, .timer 1, .elapse 150, .timer 1, .windowFocus,
       .animationFrame] (by decide)).2.2.2.2.2).trans (by decide)⟩

theorem SocialButtons.sb_callback_remembered (T : Nat) (b : Elem) (cb : Callback) (w : World)
    (hcb : cb = .clearLastClicked b → T + 5000 ≤ w.page.now) (h : w.remembered T b) :
    (cb.run w).remembered T b := by
  obtain ⟨h1, h2, h3⟩ := h
  cases cb with
  | clearLastClicked b' =>
    simp only [Callback.run]
    split
    · rename_i hlast
      refine ⟨h1, fun hnow => ?_, h3⟩
      have := h2 hnow
      rw [this] at hlast
      have hb : b = b' := Option.some.inj hlast
      subst hb
      have := hcb rfl
      simp only at hnow
      omega
    · exact ⟨h1, h2, h3⟩
  | blurClicked c =>
    simp only [Callback.run, World.remembered, SocialButtons.sb_perform_self,
      SocialButtons.sb_perform_page]
    by_cases ha : w.page.activeElement = some c <;> simp [Effect.apply, ha] <;> exact ⟨h1, h2, h3⟩
  | scheduleAttempts c =>
    simp only [Callback.run, World.remembered, SocialButtons.sb_perform_self,
      SocialButtons.sb_perform_page]
    simp [Effect.apply]
    exact ⟨fun t ht => by
      rcases ht with ht | ht | ht
      · exact h1 t ht
      · subst ht; simp
      · subst ht; simp, h2, h3⟩
  | firstAttempt c =>
    simp only [Callback.run]
    split
    · split
      · simp only [World.remembered, SocialButtons.sb_perform_self, SocialButtons.sb_perform_page]
        simp [Effect.apply]
        exact ⟨fun t ht => by
          rcases ht with ht | ht
          · exact h1 t ht
          · subst ht; simp, h2, h3⟩
      · exact ⟨h1, h2, h3⟩
    · exact ⟨h1, h2, h3⟩
  | secondAttempt c =>
    simp only [Callback.run]
    split
    · split
      · simp only [World.remembered, SocialButtons.sb_perform_self, SocialButtons.sb_perform_page]
        simp [Effect.apply]
        exact ⟨fun t ht => by
          rcases ht with ht | ht
          · exact h1 t ht
          · subst ht; simp, h2, h3⟩
      · exact ⟨h1, h2, h3⟩
    · exact ⟨h1, h2, h3⟩
  | blurIfActive c =>
    simp only [Callback.run]
    split
    · rename_i ha
      simp only [World.remembered, SocialButtons.sb_perform_self, SocialButtons.sb_perform_page]
      simp [Effect.apply, ha]
      exact ⟨h1, h2, h3⟩
    · exact ⟨h1, h2, h3⟩
  | focusLastClicked =>
    simp only [Callback.run]
    split
    · simp only [World.remembered, SocialButtons.sb_perform_self, SocialButtons.sb_perform_page]
      simp [Effect.apply]
      exact ⟨fun t ht => by
        rcases ht with ht | ht
        · exact h1 t ht
        · subst ht; simp, h2, h3⟩
    · exact ⟨h1, h2, h3⟩
  | blurLastClicked =>
    simp only [Callback.run]
    split
    · split
      · rename_i ha
        simp only [World.remembered, SocialButtons.sb_perform_self,
          SocialButtons.sb_perform_page]
        simp [Effect.apply, ha]
        exact ⟨h1, h2, h3⟩
      · exact ⟨h1, h2, h3⟩
    · exact ⟨h1, h2, h3⟩

theorem SocialButtons.sb_foldl_remembered (T : Nat) (b : Elem) (q : List Callback) (w : World)
    (hq : ∀ cb ∈ q, cb ≠ .clearLastClicked b) (h : w.remembered T b) :
    (q.foldl (fun acc cb => cb.run acc) w).remembered T b := by
  induction q generalizing w with
  | nil => exact h
  | cons cb rest ih =>
    simp only [List.foldl_cons]
    exact ih _ (fun c hc => hq c (List.mem_cons_of_mem _ hc))
      (SocialButtons.sb_callback_remembered T b cb w
        (fun hcb => absurd hcb (hq cb (List.mem_cons_self _ _))) h)

theorem SocialButtons.sb_event_remembered (T : Nat) (b : Elem) (ev : Event) (w : World)
    (hev : ev.isPassive = true) (h : w.remembered T b) : (ev.apply w).remembered T b := by
  cases ev with
  | click c => simp [Event.isPassive] at hev
  | destroy => simp [Event.isPassive] at hev
  | animationFrame =>
    simp only [Event.apply]
    exact SocialButtons.sb_foldl_remembered T b _ _ h.2.2
      ⟨h.1, h.2.1, fun cb hcb => by simp at hcb⟩
  | elapse ms =>
    obtain ⟨h1, h2, h3⟩ := h
    refine ⟨h1, fun hnow => h2 ?_, h3⟩
    simp only [Event.apply] at hnow
    omega
  | timer index =>
    simp only [Event.apply]
    cases hget : w.page.timers.get? index with
    | none => exact h
    | some t =>
      simp only []
      split
      · rename_i hdue
        apply SocialButtons.sb_callback_remembered
        · intro hcb
          have hmem : t ∈ w.page.timers := List.get?_mem hget
          have := h.1 t hmem hcb
          simp only
          omega
        · exact ⟨fun t' ht' => h.1 t' (List.mem_of_mem_eraseIdx ht'), h.2.1, h.2.2⟩
      · exact h
  | windowFocus =>
    obtain ⟨h1, h2, h3⟩ := h
    simp only [Event.apply, SocialButtons.windowFocusHandler]
    split
    · split
      · refine ⟨h1, h2, ?_⟩
        simp only [SocialButtons.sb_perform_page, Effect.apply, List.mem_append,
          List.mem_singleton]
        intro cb hcb
        rcases hcb with hcb | hcb
        · exact h3 cb hcb
        · subst hcb; simp
      · exact ⟨h1, h2, h3⟩
    · exact ⟨h1, h2, h3⟩
  | windowBlur => exact h
  | mediaChange isMatch =>
    simp only [Event.apply]
    split <;> exact h
  | userFocus target => exact h

theorem SocialButtons.sb_run_remembered (T : Nat) (b : Elem) (events : List Event) (w : World)
    (hev : ∀ ev ∈ events, ev.isPassive = true) (h : w.remembered T b) :
    (SocialButtons.run events w).remembered T b := by
  induction events generalizing w with
  | nil => exact h
  | cons ev rest ih =>
    simp only [SocialButtons.run, List.foldl_cons]
    exact ih _ (fun e he => hev e (List.mem_cons_of_mem _ he))
      (SocialButtons.sb_event_remembered T b ev w (hev ev (List.mem_cons_self _ _)) h)

/-- The part of C11 that holds. When a button is clicked on desktop while no
expiry timer for that same button is pending or queued (it was not clicked in
the 5000 ms before), it stays remembered for the next 5000 ms, whatever events
other than clicks and `destroy()` happen. -/
theorem SocialButtons.sb_first_click_remembered (w : World) (b : Elem) (later : List Event)
    (hdesktop : w.self.isDesktop = true)
    (hold : ∀ t ∈ w.page.timers, t.callback ≠ .clearLastClicked b)
    (hqueue : ∀ cb ∈ w.page.rafQueue, cb ≠ .clearLastClicked b)
    (hlater : ∀ ev ∈ later, ev.isPassive = true)
    (hsoon : (SocialButtons.run later (SocialButtons.handleSocialButtonClick b w)).page.now
      < w.page.now + 5000) :
    (SocialButtons.run later
      (SocialButtons.handleSocialButtonClick b w)).self.lastClickedButton = some b := by
  refine (SocialButtons.sb_run_remembered w.page.now b later _ hlater ?_).2.1 hsoon
  unfold SocialButtons.handleSocialButtonClick SocialButtons.setupWindowFocusHandler
  cases hh : w.self.windowFocusHandler <;>
    by_cases hm : (⟨.window, "focus", .windowFocusHandler⟩ : Listener) ∈ w.page.listeners <;>
    simp [World.remembered, hdesktop, hh, hm, Effect.apply] <;>
    refine ⟨fun t ht hcb => ?_, fun cb hcb => ?_⟩ <;>
    first
      | (rcases ht with ht | ht
         · exact absurd hcb (hold t ht)
         · subst ht; simp)
      | (rcases hcb with hcb | hcb | hcb
         · exact hqueue cb hcb
         · subst hcb; simp
         · subst hcb; simp)

end SocialButtonsMoreFacts

section QRModalMoreFacts
open QRModal

theorem QRModal.qr_visible_congr (modal : Elem) (w w' : World) (hs : w'.self = w.self)
    (h1 : w'.page.classList = w.page.classList)
    (h2 : w'.page.getAttribute = w.page.getAttribute)
    (h3 : w'.page.bodyOverflow = w.page.bodyOverflow) (h : w.visible modal) :
    w'.visible modal := by
  unfold World.visible at h ⊢
  rw [hs, h1, h2, h3]
  exact h

theorem QRModal.qr_callback_frame (cb : Callback) (w : World) :
    (cb.run w).self = w.self ∧ (cb.run w).page.classList = w.page.classList ∧
    (cb.run w).page.getAttribute = w.page.getAttribute ∧
    (cb.run w).page.bodyOverflow = w.page.bodyOverflow := by
  cases cb with
  | blurQrButtonElement =>
    simp only [Callback.run]
    split <;> simp [QRModal.qr_blur_frame]
  | returnFocus b =>
    by_cases hfo : w.page.focusable b = true <;> simp [Callback.run, Effect.apply, hfo]
  | blurIfActive b =>
    simp only [Callback.run]
    split <;> simp [QRModal.qr_blur_frame]

theorem QRModal.qr_foldl_frame (q : List Callback) (w : World) :
    (q.foldl (fun acc cb => cb.run acc) w).self = w.self ∧
    (q.foldl (fun acc cb => cb.run acc) w).page.classList = w.page.classList ∧
    (q.foldl (fun acc cb => cb.run acc) w).page.getAttribute = w.page.getAttribute ∧
    (q.foldl (fun acc cb => cb.run acc) w).page.bodyOverflow = w.page.bodyOverflow := by
  induction q generalizing w with
  | nil => exact ⟨rfl, rfl, rfl, rfl⟩
  | cons cb rest ih =>
    simp only [List.foldl_cons]
    obtain ⟨a1, a2, a3, a4⟩ := QRModal.qr_callback_frame cb w
    obtain ⟨b1, b2, b3, b4⟩ := ih (cb.run w)
    exact ⟨b1.trans a1, b2.trans a2, b3.trans a3, b4.trans a4⟩

theorem QRModal.qr_open_visible (modal : Elem) (w : World) (h : w.visible modal) :
    (QRModal.open w).world.visible modal := by
  obtain ⟨hm, hc, -, -, -⟩ := h
  obtain ⟨c, hc'⟩ := Option.isSome_iff_exists.mp hc
  have hs := QRModal.qr_open_spec w modal c hm hc'
  have hf := QRModal.qr_open_fields w
  refine ⟨hf.1.trans hm, by rw [hf.2, hc], ?_, ?_, ?_⟩
  · simp [hs.2.1, hs.2.2.1]
  · simp [hs.2.1, hs.2.2.2.1]
  · simp [hs.2.1, hs.2.2.2.2.2]

theorem QRModal.qr_close_visible (modal : Elem) (w : World) (h : w.visible modal) :
    (QRModal.close w).world.visible modal := by
  obtain ⟨hm, hc, h1, h2, h3⟩ := h
  unfold QRModal.close
  simp only [hm]
  cases ho : w.self.isOpen with
  | false => exact ⟨hm, hc, h1, h2, h3⟩
  | true =>
    simp only [Outcome.ok, Bool.not_true, Bool.false_eq_true, if_false]
    rcases hf : w.page.focusedInside modal with _ | f
    · simp only []
      generalize hR : QRModal.returnFocusToQRButton _ = R
      rcases QRModal.qr_returnFocus_result _ _ hR with h | ⟨b, h⟩ <;> subst h <;>
        simp [World.visible, hm, hc, Effect.apply]
    · simp only []
      generalize hR : QRModal.returnFocusToQRButton _ = R
      rcases QRModal.qr_returnFocus_result _ _ hR with h | ⟨b, h⟩ <;> subst h <;>
        by_cases ha : w.page.activeElement = some f <;>
        simp [World.visible, hm, hc, Effect.apply, ha]

theorem QRModal.qr_event_visible (modal : Elem) (ev : Event) (w : World)
    (h : w.visible modal) : (ev.apply w).visible modal := by
  match ev with
  | .open => exact QRModal.qr_open_visible modal w h
  | .close => exact QRModal.qr_close_visible modal w h
  | .keydown key =>
    simp only [Event.apply, QRModal.handleKeydown]
    cases ho : w.self.isOpen with
    | false => exact h
    | true =>
      by_cases hk : key = "Escape"
      · simpa [hk] using QRModal.qr_close_visible modal w h
      · simpa [hk, Outcome.ok] using h
  | .downloadQR =>
    simp only [Event.apply, QRModal.downloadQR]
    cases hi : w.self.qrImage with
    | none => exact h
    | some img => exact QRModal.qr_visible_congr modal w _ rfl rfl rfl rfl h
  | .animationFrame =>
    simp only [Event.apply]
    obtain ⟨a1, a2, a3, a4⟩ := QRModal.qr_foldl_frame w.page.rafQueue
      { w with page := { w.page with rafQueue := [] } }
    exact QRModal.qr_visible_congr modal w _ a1 a2 a3 a4 h
  | .timer index =>
    simp only [Event.apply]
    split
    · rename_i cb _ _
      obtain ⟨a1, a2, a3, a4⟩ := QRModal.qr_callback_frame cb
        { w with page := { w.page with timers := w.page.timers.eraseIdx index } }
      exact QRModal.qr_visible_congr modal w _ a1 a2 a3 a4 h
    · exact h
  | .userFocus target => exact QRModal.qr_visible_congr modal w _ rfl rfl rfl rfl h

theorem QRModal.qr_run_visible (modal : Elem) (events : List Event) (w : World)
    (h : w.visible modal) : (QRModal.run events w).visible modal := by
  induction events generalizing w with
  | nil => exact h
  | cons ev rest ih =>
    simp only [QRModal.run, List.foldl_cons]
    exact ih _ (QRModal.qr_event_visible modal ev w h)

theorem QRModal.qr_addListener_frame (l : Listener) (p : Page) :
    ((Effect.addEventListener l).apply p).classList = p.classList ∧
    ((Effect.addEventListener l).apply p).getAttribute = p.getAttribute ∧
    ((Effect.addEventListener l).apply p).bodyOverflow = p.bodyOverflow := by
  by_cases h : l ∈ p.listeners <;> simp [Effect.apply, h]

theorem QRModal.qr_listen_frame (w : World) (target : Option Elem) (type : String)
    (handler : Option Handler) :
    (w.listen target type handler).self = w.self ∧
    (w.listen target type handler).page.classList = w.page.classList ∧
    (w.listen target type handler).page.getAttribute = w.page.getAttribute ∧
    (w.listen target type handler).page.bodyOverflow = w.page.bodyOverflow := by
  cases target <;> cases handler <;> simp [World.listen, QRModal.qr_addListener_frame]

theorem QRModal.qr_construct_visible (p : Page) (modal closeButton : Elem)
    (hmodal : p.qrModal = some modal) (hclose : p.modalClose = some closeButton)
    (hclass : "active" ∉ p.classList modal)
    (haria : p.getAttribute modal "aria-hidden" ≠ some "false")
    (hoverflow : p.bodyOverflow ≠ "hidden") :
    (QRModal.construct p).visible modal := by
  unfold QRModal.construct QRModal.init QRModal.bindEvents
  simp [World.visible, Fields.initial, QRModal.qr_listen_frame, QRModal.qr_addListener_frame,
    hmodal, hclose, hclass, haria, hoverflow]

/-- C20, counterexample. On a page whose markup already shows the modal (class
`active`, `aria-hidden="false"`), the freshly constructed controller has
`isOpen` false while the modal carries `active` and `aria-hidden` is
`"false"`. -/
theorem qr_fresh_controller_on_shown_markup :
    (QRModal.construct QRModal.pageShownByMarkup).self.modal = some 1 ∧
    (QRModal.construct QRModal.pageShownByMarkup).self.closeButton = some 3 ∧
    (QRModal.construct QRModal.pageShownByMarkup).self.isOpen = false ∧
    "active" ∈ (QRModal.construct QRModal.pageShownByMarkup).page.classList 1 ∧
    (QRModal.construct QRModal.pageShownByMarkup).page.getAttribute 1 "aria-hidden"
      = some "false" := by
  decide

/-- C20, amended. Take a page with the modal and the close control on which,
before construction, the modal has no class `active`, its `aria-hidden` is not
`"false"` and the body overflow is not `"hidden"`. In every state reached from
the constructed controller by `open()`, `close()` and `handleKeydown(e)` calls
(and by `downloadQR()`, animation frames, timers and focus moves), `isOpen` is
true if and only if the modal has the class `active`, if and only if its
`aria-hidden` is `"false"`, if and only if the body overflow is `"hidden"`. -/
theorem qr_visibility_invariant (p : QRModal.Page) (modal closeButton : Elem)
    (events : List QRModal.Event)
    (hmodal : p.qrModal = some modal) (hclose : p.modalClose = some closeButton)
    (hclass : "active" ∉ p.classList modal)
    (haria : p.getAttribute modal "aria-hidden" ≠ some "false")
    (hoverflow : p.bodyOverflow ≠ "hidden") :
    ((QRModal.run events (QRModal.construct p)).self.isOpen = true ↔
      "active" ∈ (QRModal.run events (QRModal.construct p)).page.classList modal) ∧
    ((QRModal.run events (QRModal.construct p)).self.isOpen = true ↔
      (QRModal.run events (QRModal.construct p)).page.getAttribute modal "aria-hidden"
        = some "false") ∧
    ((QRModal.run events (QRModal.construct p)).self.isOpen = true ↔
      (QRModal.run events (QRModal.construct p)).page.bodyOverflow = "hidden") :=
  (QRModal.qr_run_visible modal events _
    (QRModal.qr_construct_visible p modal closeButton hmodal hclose hclass haria hoverflow)).2.2

/-- Witness for C20 (amended): open, open again, Escape, open, on the full page;
the modal ends Open with the scroll lock held. -/
theorem qr_visibility_invariant_witness :
    (QRModal.run [.open, .open, .keydown "Escape", .animationFrame, .open]
      (QRModal.construct QRModal.fullPage)).self.isOpen = true ∧
    (QRModal.run [.open, .open, .keydown "Escape", .animationFrame, .open]
      (QRModal.construct QRModal.fullPage)).page.bodyOverflow = "hidden" :=
  ⟨by decide,
   (qr_visibility_invariant QRModal.fullPage 1 3
      [.open, .open, .keydown "Escape", .animationFrame, .open] rfl rfl (by decide) (by decide)
      (by decide)).2.2.mp (by decide)⟩

end QRModalMoreFacts
